import Mathlib

/-!
Verification development for the RFP-System repository.

The files embedded here (shallowly, as executable Lean definitions) are:
  * `backend/rfp/utils.py` — the extraction engine
    (`extract_rfp_from_text`, `extract_proposal_from_email`);
  * `backend/rfp/views.py` — `create_rfp_from_text`, `_parse_quantity`;
  * `backend/rfp/management/commands/fetch_emails.py` — the Proposal
    upsert step of `_create_proposal_from_email`;
  * `backend/rfp/models.py` — the rows touched by the above.

Modelling conventions:
  * Python/JSON numbers are modelled exactly as rationals (`Rat`); binary
    floating point rounding is abstracted away.  The nonstandard
    `Infinity`/`NaN` extensions of Python's `json` module are outside the
    model.
  * The remote Gemini call is an oracle (`RemoteOutcome`): it either raises
    an exception (modelled by its type name and message) or returns a
    response text.  The configured API key is an oracle too
    (`Option String`, `none` = unset environment variable).
  * Exception messages are carried as strings; their exact wording is
    approximated where Python embeds reprs.
-/

/-- JSON values as produced by Python's `json.loads`.  `intNum` is a Python
`int` (a number literal without fraction or exponent, arbitrary precision);
`num` is a Python `float` (kept as an exact rational: decimal-to-binary
rounding, and the saturation of out-of-range float literals, are
abstracted, so in-model floats are always finite).  `obj` models a Python
`dict`: the parser deduplicates keys exactly as `dict` construction does
(last value wins, first position kept), so a plain first-match lookup is
faithful. -/
inductive Json where
  | null : Json
  | bool (b : Bool) : Json
  | intNum (n : Int) : Json
  | num (q : Rat) : Json
  | str (s : String) : Json
  | arr (xs : List Json) : Json
  | obj (kvs : List (String × Json)) : Json

/-- The value domain of Python `float()`: a finite value (exact in the
rational model) or one of the special values `inf`, `-inf`, `nan`. -/
inductive PyFloat where
  | finite (q : Rat) : PyFloat
  | inf : PyFloat
  | neginf : PyFloat
  | nan : PyFloat
deriving DecidableEq

/-- Python truthiness of a float: only `0.0` is falsy (`bool(nan)` is
`True`). -/
def PyFloat.truthy : PyFloat → Bool
  | .finite q => q != 0
  | _ => true

/-- Python `x is None` on a JSON-decoded value. -/
def Json.isNull : Json → Bool
  | .null => true
  | _ => false

/-- Python truthiness (`bool(x)`) for JSON-decoded values. -/
def Json.truthy : Json → Bool
  | .null => false
  | .bool b => b
  | .intNum n => n != 0
  | .num q => q != 0
  | .str s => s != ""
  | .arr xs => !xs.isEmpty
  | .obj kvs => !kvs.isEmpty

/-- Python `dict.get(k, d)` on the key-value list of a decoded object. -/
def dictGetD : List (String × Json) → String → Json → Json
  | [], _, d => d
  | (k, v) :: rest, key, d => if k = key then v else dictGetD rest key d

/-- Python `k in dict` on the key-value list of a decoded object. -/
def dictHasKey : List (String × Json) → String → Bool
  | [], _ => false
  | (k, _) :: rest, key => k = key || dictHasKey rest key

/-- Insertion into a Python dict: an existing key keeps its position but
takes the new value, a new key is appended.  Used by the JSON parser to
mirror how `json.loads` builds objects. -/
def dictInsert : List (String × Json) → String → Json → List (String × Json)
  | [], key, v => [(key, v)]
  | (k, w) :: rest, key, v =>
    if k = key then (k, v) :: rest else (k, w) :: dictInsert rest key v

/-- Characters accepted by Python's `str.strip()` / `str.isspace()`
(ASCII whitespace, the C1 separators, and the Unicode space category). -/
def pyWsChar (c : Char) : Bool :=
  let n := c.toNat
  (9 ≤ n && n ≤ 13) || (28 ≤ n && n ≤ 31) || n == 32 || n == 133 ||
    n == 160 || n == 5760 || (8192 ≤ n && n ≤ 8202) || n == 8232 ||
    n == 8233 || n == 8239 || n == 8287 || n == 12288

/-- Python `str.strip()` on a character list. -/
def pyStripL (l : List Char) : List Char :=
  ((l.dropWhile pyWsChar).reverse.dropWhile pyWsChar).reverse

/-- Python `str.strip()`. -/
def pyStrip (s : String) : String := String.mk (pyStripL s.data)

/-- Whitespace skipped by Python's JSON scanner (`json.decoder.WHITESPACE`). -/
def jsonWsChar (c : Char) : Bool :=
  c == ' ' || c == '\t' || c == '\n' || c == '\r'

/-- Python `str.startswith` on character lists. -/
def startsWithL : List Char → List Char → Bool
  | [], _ => true
  | _ :: _, [] => false
  | p :: ps, c :: cs => p == c && startsWithL ps cs

/-- Python `str.endswith` on character lists. -/
def endsWithL (p l : List Char) : Bool :=
  startsWithL p.reverse l.reverse

/-- Python slicing `s[:-n]` on character lists. -/
def dropRightL (n : Nat) (l : List Char) : List Char :=
  (l.reverse.drop n).reverse

/-- A raised Python exception: type name and message. -/
structure PyExn where
  kind : String
  msg : String
deriving DecidableEq

deriving instance DecidableEq for Except

/-- Truncation toward zero, the behaviour of Python `int()` on a number. -/
def ratTrunc (q : Rat) : Int := Int.tdiv q.num q.den

/-- Digit scanner for Python numeric literals: consumes `digit
(digit | underscore digit)*` greedily and returns the accumulated value,
the number of digits consumed, and the rest of the input.  An underscore
not followed by a digit is left unconsumed. -/
def scanDigits (acc cnt : Nat) : List Char → Nat × Nat × List Char
  | [] => (acc, cnt, [])
  | c :: rest =>
    if c.isDigit then scanDigits (acc * 10 + (c.toNat - 48)) (cnt + 1) rest
    else if c == '_' then
      match rest with
      | d :: rest2 =>
        if d.isDigit then scanDigits (acc * 10 + (d.toNat - 48)) (cnt + 1) rest2
        else (acc, cnt, c :: rest)
      | [] => (acc, cnt, c :: rest)
    else (acc, cnt, c :: rest)

/-- Python `int(s)` for a string `s`: strip, optional sign, decimal digits
with optional single underscores between digits.  Returns `none` where
Python raises `ValueError`. -/
def parseIntLit (l : List Char) : Option Int :=
  let l := pyStripL l
  let sign : Int × List Char :=
    match l with
    | '-' :: rest => (-1, rest)
    | '+' :: rest => (1, rest)
    | _ => (1, l)
  match scanDigits 0 0 sign.2 with
  | (v, cnt, rest) =>
    if cnt = 0 ∨ rest ≠ [] then none else some (sign.1 * (v : Int))

/-- The smallest magnitude at which round-to-nearest-even overflows a
binary64 float: `2^1024 - 2^970` (the midpoint above `DBL_MAX`, which ties
to even and rounds up to infinity).  `float(s)` saturates to `±inf` from
this magnitude on, and `float(n)` for an `int` `n` raises `OverflowError`
from it on.  Written as a decimal literal so the kernel can evaluate
comparisons against it; `dblOverflowBoundN_eq` below checks the value. -/
def dblOverflowBoundN : Nat := 179769313486231580793728971405303415079934132710037826936173778980444968292764750946649017977587207096330286416692887910946555547851940402630657488671505820681908902000708383676273854845817711531764475730270069855571366959622842914819860834936475292719074168444365510704342711559699508093042880177904174497792

def dblOverflowBound : Rat := (dblOverflowBoundN : Rat)

/-- Conversion of an exact decimal value to the float domain, as performed
by C `strtod` inside Python `float(s)`: out-of-range magnitudes saturate
to `±inf`; in-range values are kept exact (rounding abstracted). -/
def floatOfRat (q : Rat) : PyFloat :=
  if dblOverflowBound ≤ q then .inf
  else if q ≤ -dblOverflowBound then .neginf
  else .finite q

/-- Python `float(s)` for a string `s`: strip, optional sign, then either
one of the case-insensitive literals `inf`/`infinity`/`nan` or a decimal
mantissa (digits, optionally with one dot) with optional exponent.
Returns `none` where Python raises `ValueError`. -/
def parseFloatLit (l : List Char) : Option PyFloat :=
  let l := pyStripL l
  let sign : Rat × List Char :=
    match l with
    | '-' :: rest => (-1, rest)
    | '+' :: rest => (1, rest)
    | _ => (1, l)
  let low := sign.2.map Char.toLower
  if low = "inf".data ∨ low = "infinity".data then
    some (if sign.1 < 0 then .neginf else .inf)
  else if low = "nan".data then some .nan
  else
    match scanDigits 0 0 sign.2 with
    | (iv, icnt, r1) =>
      let frac : Nat × Nat × List Char :=
        match r1 with
        | '.' :: r2 => scanDigits 0 0 r2
        | _ => (0, 0, r1)
      match frac with
      | (fv, fcnt, r3) =>
        if icnt + fcnt = 0 then none
        else
          let mant : Rat := sign.1 * ((iv : Rat) + (fv : Rat) / ((10 : Rat) ^ fcnt))
          match r3 with
          | [] => some (floatOfRat mant)
          | e :: r4 =>
            if e == 'e' || e == 'E' then
              let esign : Int × List Char :=
                match r4 with
                | '-' :: r5 => (-1, r5)
                | '+' :: r5 => (1, r5)
                | _ => (1, r4)
              match scanDigits 0 0 esign.2 with
              | (ev, ecnt, r6) =>
                if ecnt = 0 ∨ r6 ≠ [] then none
                else some (floatOfRat (mant * (10 : Rat) ^ (esign.1 * (ev : Int))))
            else none

/-- Python type name of a decoded JSON value, for exception messages. -/
def pyTypeName : Json → String
  | .null => "NoneType"
  | .bool _ => "bool"
  | .intNum _ => "int"
  | .num _ => "float"
  | .str _ => "str"
  | .arr _ => "list"
  | .obj _ => "dict"

/-- Python `int(x)` applied to a JSON-decoded value, with the exception it
raises on failure (faithful to `utils.py` item validation, where the call
is not guarded).  In-model JSON floats are finite (see `Json`), so the
`OverflowError`/`ValueError` of `int(inf)`/`int(nan)` cannot arise here
and every failure is a `ValueError` or `TypeError`. -/
def pyIntCore : Json → Except PyExn Int
  | .null => .error ⟨"TypeError", "int() argument must be a string or a number, not NoneType"⟩
  | .bool b => .ok (if b then 1 else 0)
  | .intNum n => .ok n
  | .num q => .ok (ratTrunc q)
  | .str s =>
    match parseIntLit s.data with
    | some n => .ok n
    | none => .error ⟨"ValueError", "invalid literal for int() with base 10: " ++ s⟩
  | .arr _ => .error ⟨"TypeError", "int() argument must be a string or a number, not list"⟩
  | .obj _ => .error ⟨"TypeError", "int() argument must be a string or a number, not dict"⟩

/-- Python `float(x)` applied to a JSON-decoded value, with the exception
it raises on failure.  A Python `int` whose magnitude reaches
`dblOverflowBound` raises `OverflowError` — which the guards
`except (ValueError, TypeError)` at `utils.py` lines 164-169 and 340-345
do NOT catch. -/
def pyFloatE : Json → Except PyExn PyFloat
  | .null => .error ⟨"TypeError", "float() argument must be a string or a number, not NoneType"⟩
  | .bool b => .ok (.finite (if b then 1 else 0))
  | .intNum n =>
    if dblOverflowBound ≤ ((n : Rat)) ∨ ((n : Rat)) ≤ -dblOverflowBound then
      .error ⟨"OverflowError", "int too large to convert to float"⟩
    else .ok (.finite (n : Rat))
  | .num q => .ok (.finite q)
  | .str s =>
    match parseFloatLit s.data with
    | some f => .ok f
    | none => .error ⟨"ValueError", "could not convert string to float: " ++ s⟩
  | .arr _ => .error ⟨"TypeError", "float() argument must be a string or a number, not list"⟩
  | .obj _ => .error ⟨"TypeError", "float() argument must be a string or a number, not dict"⟩

/-- Hex digit value for JSON unicode escapes. -/
def hexVal (c : Char) : Option Nat :=
  if '0' ≤ c ∧ c ≤ '9' then some (c.toNat - 48)
  else if 'a' ≤ c ∧ c ≤ 'f' then some (c.toNat - 87)
  else if 'A' ≤ c ∧ c ≤ 'F' then some (c.toNat - 70)
  else none

/-- Code point of four hex escape digits. -/
def hex4Val (a b c d : Char) : Option Nat := do
  let va ← hexVal a
  let vb ← hexVal b
  let vc ← hexVal c
  let vd ← hexVal d
  some (((va * 16 + vb) * 16 + vc) * 16 + vd)

/-- Decoded character of a single-character JSON escape. -/
def escChar (e : Char) : Option Char :=
  if e == '"' then some '"'
  else if e == '\\' then some '\\'
  else if e == '/' then some '/'
  else if e == 'b' then some (Char.ofNat 8)
  else if e == 'f' then some (Char.ofNat 12)
  else if e == 'n' then some '\n'
  else if e == 'r' then some '\r'
  else if e == 't' then some '\t'
  else none

/-- JSON string body scanner (after the opening quote), following
`json.decoder.py_scanstring` in strict mode: bare control characters are
rejected, the standard escapes and `u` escapes (with surrogate-pair
combination) are decoded.  Lean characters cannot hold lone surrogates;
those map to `Char.ofNat`'s default, a divergence on inputs no claim
touches. -/
def scanString : Nat → List Char → Option (List Char × List Char)
  | 0, _ => none
  | _ + 1, [] => none
  | _ + 1, '"' :: rest => some ([], rest)
  | fuel + 1, '\\' :: 'u' :: a :: b :: c :: d :: rest =>
    (match hex4Val a b c d with
     | none => none
     | some n =>
       if 0xd800 ≤ n ∧ n ≤ 0xdbff then
         match rest with
         | '\\' :: 'u' :: a2 :: b2 :: c2 :: d2 :: rest2 =>
           (match hex4Val a2 b2 c2 d2 with
            | some m =>
              if 0xdc00 ≤ m ∧ m ≤ 0xdfff then
                (scanString fuel rest2).map fun (cs, r) =>
                  (Char.ofNat (0x10000 + (n - 0xd800) * 0x400 + (m - 0xdc00)) :: cs, r)
              else
                (scanString fuel ('\\' :: 'u' :: a2 :: b2 :: c2 :: d2 :: rest2)).map
                  fun (cs, r) => (Char.ofNat n :: cs, r)
            | none =>
              (scanString fuel ('\\' :: 'u' :: a2 :: b2 :: c2 :: d2 :: rest2)).map
                fun (cs, r) => (Char.ofNat n :: cs, r))
         | _ => (scanString fuel rest).map fun (cs, r) => (Char.ofNat n :: cs, r)
       else (scanString fuel rest).map fun (cs, r) => (Char.ofNat n :: cs, r))
  | fuel + 1, '\\' :: e :: rest =>
    (if e == 'u' then none
     else
       match escChar e with
       | none => none
       | some c => (scanString fuel rest).map fun (cs, r) => (c :: cs, r))
  | fuel + 1, c :: rest =>
    if c.toNat < 32 then none
    else (scanString fuel rest).map fun (cs, r) => (c :: cs, r)

/-- Plain decimal digit scanner (no underscores), as in the JSON number
grammar. -/
def scanDigitsJson (acc cnt : Nat) : List Char → Nat × Nat × List Char
  | [] => (acc, cnt, [])
  | c :: rest =>
    if c.isDigit then scanDigitsJson (acc * 10 + (c.toNat - 48)) (cnt + 1) rest
    else (acc, cnt, c :: rest)

/-- JSON number scanner, following `json.scanner.NUMBER_RE`:
`-? (0 | [1-9][0-9]*) (\.[0-9]+)? ([eE][-+]?[0-9]+)?`.  As in Python's
`json`, a match without fraction and exponent becomes a Python `int`
(exact, arbitrary precision) and any other match becomes a `float`
(value computed exactly as a rational). -/
def scanNumber (l : List Char) : Option (Json × List Char) :=
  let sign : Int × List Char :=
    match l with
    | '-' :: rest => (-1, rest)
    | _ => (1, l)
  match sign.2 with
  | [] => none
  | c :: ctail =>
    if ¬c.isDigit then none
    else
      -- the integer part is `0` alone or a run not starting with `0`
      let ip : Nat × Nat × List Char :=
        if c == '0' then (0, 1, ctail) else scanDigitsJson 0 0 sign.2
      let fr : Option (Nat × Nat) × List Char :=
        match ip.2.2 with
        | '.' :: r2 =>
          (match r2 with
           | d :: _ =>
             if d.isDigit then
               let f := scanDigitsJson 0 0 r2
               (some (f.1, f.2.1), f.2.2)
             else (none, ip.2.2)
           | [] => (none, ip.2.2))
        | _ => (none, ip.2.2)
      let ex : Option Int × List Char :=
        match fr.2 with
        | e :: r3 =>
          if e == 'e' || e == 'E' then
            let es : Int × List Char :=
              match r3 with
              | '-' :: r4 => (-1, r4)
              | '+' :: r4 => (1, r4)
              | _ => (1, r3)
            match es.2 with
            | d :: _ =>
              if d.isDigit then
                let g := scanDigitsJson 0 0 es.2
                (some (es.1 * (g.1 : Int)), g.2.2)
              else (none, fr.2)
            | [] => (none, fr.2)
          else (none, fr.2)
        | [] => (none, fr.2)
      match fr.1, ex.1 with
      | none, none => some (Json.intNum (sign.1 * (ip.1 : Int)), ex.2)
      | _, _ =>
        let fval : Rat :=
          match fr.1 with
          | some (fv, fcnt) => (fv : Rat) / ((10 : Rat) ^ fcnt)
          | none => 0
        let eval : Rat :=
          match ex.1 with
          | some e => (10 : Rat) ^ e
          | none => 1
        some (Json.num ((sign.1 : Rat) * ((ip.1 : Rat) + fval) * eval), ex.2)

mutual

/-- JSON value scanner with fuel, following `json.scanner.py_make_scanner`:
the value is expected at the head of the input (callers skip whitespace). -/
def parseVal : Nat → List Char → Option (Json × List Char)
  | 0, _ => none
  | _ + 1, [] => none
  | fuel + 1, c :: rest =>
    if c == '"' then
      (scanString (rest.length + 1) rest).map fun (cs, r) => (Json.str (String.mk cs), r)
    else if c == '{' then
      match rest.dropWhile jsonWsChar with
      | '}' :: r2 => some (Json.obj [], r2)
      | r2 => parseMembers fuel r2 []
    else if c == '[' then
      match rest.dropWhile jsonWsChar with
      | ']' :: r2 => some (Json.arr [], r2)
      | r2 => (parseElems fuel r2).map fun (xs, r) => (Json.arr xs, r)
    else if c == 't' then
      match rest with
      | 'r' :: 'u' :: 'e' :: r2 => some (Json.bool true, r2)
      | _ => none
    else if c == 'f' then
      match rest with
      | 'a' :: 'l' :: 's' :: 'e' :: r2 => some (Json.bool false, r2)
      | _ => none
    else if c == 'n' then
      match rest with
      | 'u' :: 'l' :: 'l' :: r2 => some (Json.null, r2)
      | _ => none
    else
      scanNumber (c :: rest)

/-- Object members scanner: the accumulated dict uses `dictInsert`, so
duplicate keys behave as in Python (`last value wins`). -/
def parseMembers : Nat → List Char → List (String × Json) → Option (Json × List Char)
  | 0, _, _ => none
  | fuel + 1, l, acc =>
    match l with
    | '"' :: rest =>
      match scanString (rest.length + 1) rest with
      | none => none
      | some (ks, r1) =>
        match r1.dropWhile jsonWsChar with
        | ':' :: r2 =>
          match parseVal fuel (r2.dropWhile jsonWsChar) with
          | none => none
          | some (v, r3) =>
            let acc2 := dictInsert acc (String.mk ks) v
            match r3.dropWhile jsonWsChar with
            | ',' :: r4 =>
              match r4.dropWhile jsonWsChar with
              | r5 => parseMembers fuel r5 acc2
            | '}' :: r4 => some (Json.obj acc2, r4)
            | _ => none
        | _ => none
    | _ => none

/-- Array elements scanner. -/
def parseElems : Nat → List Char → Option (List Json × List Char)
  | 0, _ => none
  | fuel + 1, l =>
    match parseVal fuel l with
    | none => none
    | some (v, r1) =>
      match r1.dropWhile jsonWsChar with
      | ',' :: r2 =>
        (parseElems fuel (r2.dropWhile jsonWsChar)).map fun (xs, r) => (v :: xs, r)
      | ']' :: r2 => some ([v], r2)
      | _ => none

end

/-- Python `json.loads`: skip leading whitespace, scan one value, require
only whitespace afterwards.  Error strings summarise
`json.JSONDecodeError` messages. -/
def Json.loads (s : String) : Except String Json :=
  let l := s.data
  match parseVal (l.length + 1) (l.dropWhile jsonWsChar) with
  | none => .error "Expecting value"
  | some (v, rest) =>
    if rest.dropWhile jsonWsChar = [] then .ok v else .error "Extra data"

/-- Markdown code-fence stripping as in `utils.py` lines 130-138 and
308-316: strip, drop a leading ```` ```json ```` or ```` ``` ````, drop a
trailing ```` ``` ````, strip again. -/
def cleanL (l : List Char) : List Char :=
  let s1 := pyStripL l
  let s2 := if startsWithL "```json".data s1 then s1.drop 7 else s1
  let s3 := if startsWithL "```".data s2 then s2.drop 3 else s2
  let s4 := if endsWithL "```".data s3 then dropRightL 3 s3 else s3
  pyStripL s4

/-- String-level wrapper for `cleanL`. -/
def cleanResponse (s : String) : String := String.mk (cleanL s.data)

/-- Value of a strict digit run. -/
def digitsValI (l : List Char) : Int :=
  (l.foldl (fun acc c => acc * 10 + (c.toNat - 48)) 0 : Nat)

/-- Two strict decimal digits, as read by CPython's C `fromisoformat`
parser (`parse_digits`). -/
def digit2 (a b : Char) : Option Int :=
  if a.isDigit && b.isDigit then some (((a.toNat - 48) * 10 + (b.toNat - 48) : Nat) : Int)
  else none

/-- Gregorian leap year, as in `datetime`. -/
def isLeapYear (y : Int) : Bool :=
  y % 4 == 0 && (y % 100 != 0 || y % 400 == 0)

/-- Days in a month, as validated by the `datetime` constructor. -/
def daysInMonth (y m : Int) : Int :=
  if m == 2 then (if isLeapYear y then 29 else 28)
  else if m == 4 || m == 6 || m == 9 || m == 11 then 30
  else 31

/-- CPython `parse_hh_mm_ss_ff`: `HH[:MM[:SS[.fff | .ffffff]]]` with strict
two-digit components, consuming the whole input; returns
(hour, minute, second, microsecond). -/
def parseHmsf : List Char → Option (Int × Int × Int × Int)
  | a :: b :: rest =>
    (match digit2 a b with
     | none => none
     | some hh =>
       match rest with
       | [] => some (hh, 0, 0, 0)
       | ':' :: c :: d :: rest2 =>
         (match digit2 c d with
          | none => none
          | some mm =>
            match rest2 with
            | [] => some (hh, mm, 0, 0)
            | ':' :: e :: f :: rest3 =>
              (match digit2 e f with
               | none => none
               | some ss =>
                 match rest3 with
                 | [] => some (hh, mm, ss, 0)
                 | '.' :: fr =>
                   if fr.length == 3 ∧ fr.all Char.isDigit then
                     some (hh, mm, ss, digitsValI fr * 1000)
                   else if fr.length == 6 ∧ fr.all Char.isDigit then
                     some (hh, mm, ss, digitsValI fr)
                   else none
                 | _ => none)
            | _ => none)
       | _ => none)
  | _ => none

/-- Time-of-day (plus optional numeric timezone) part of an ISO string,
with the bounds enforced by the `datetime`/`timezone` constructors. -/
def isoTimeOk (l : List Char) : Bool :=
  match l.findIdx? (fun c => c == '+' || c == '-') with
  | none =>
    (match parseHmsf l with
     | some (hh, mm, ss, _) => hh ≤ 23 && mm ≤ 59 && ss ≤ 59
     | none => false)
  | some idx =>
    let tz := l.drop (idx + 1)
    (tz.length == 5 || tz.length == 8 || tz.length == 15) &&
      (match parseHmsf (l.take idx), parseHmsf tz with
       | some (hh, mm, ss, _), some (th, tm, ts, tmicro) =>
         hh ≤ 23 && mm ≤ 59 && ss ≤ 59 &&
           ((th * 3600 + tm * 60 + ts) * 1000000 + tmicro < 86400000000)
       | _, _ => false)

/-- Calendar-date part `YYYY-MM-DD` of an ISO string, with the bounds
enforced by the `datetime` constructor (`MINYEAR = 1`). -/
def isoDateOk : List Char → Bool
  | [y1, y2, y3, y4, s1, m1, m2, s2, d1, d2] =>
    [y1, y2, y3, y4, m1, m2, d1, d2].all Char.isDigit && s1 == '-' && s2 == '-' &&
      (let y := digitsValI [y1, y2, y3, y4]
       let m := digitsValI [m1, m2]
       let d := digitsValI [d1, d2]
       1 ≤ y && 1 ≤ m && m ≤ 12 && 1 ≤ d && d ≤ daysInMonth y m)
  | _ => false

/-- Python `datetime.fromisoformat(s)` succeeding, modelled on the CPython
3.10 C implementation: `YYYY-MM-DD`, optionally followed by one arbitrary
separator character and `HH[:MM[:SS[.fff | .ffffff]]][(+|-)HH:MM[:SS[.ffffff]]]`. -/
def fromisoformatOk (s : String) : Bool :=
  let l := s.data
  if l.length == 10 then isoDateOk l
  else if 12 ≤ l.length then isoDateOk (l.take 10) && isoTimeOk (l.drop 11)
  else false

/-- Success of `datetime.fromisoformat(value)` for an arbitrary decoded
value: a non-string raises `TypeError`, which `utils.py` catches alongside
`ValueError` (lines 171-176). -/
def isoAccepts : Json → Bool
  | .str s => fromisoformatOk s
  | _ => false

/-- Rendering of a number under `str()`.  JSON integers render as Python
ints; the decimal rendering of non-integer floats is abstracted as
`num/den` (no claim depends on it). -/
def numRepr (q : Rat) : String :=
  if q.den == 1 then toString q.num else toString q.num ++ "/" ++ toString q.den

mutual

/-- Python `repr()` of a JSON-decoded value, as far as the claims need it;
the quoting of strings nested inside containers is abstracted away. -/
def pyRepr : Json → String
  | .null => "None"
  | .bool true => "True"
  | .bool false => "False"
  | .intNum n => toString n
  | .num q => numRepr q
  | .str s => s
  | .arr xs => "[" ++ pyReprList xs ++ "]"
  | .obj kvs => "\x7b" ++ pyReprMembers kvs ++ "\x7d"

/-- Comma-joined reprs of list elements. -/
def pyReprList : List Json → String
  | [] => ""
  | [x] => pyRepr x
  | x :: y :: xs => pyRepr x ++ ", " ++ pyReprList (y :: xs)

/-- Comma-joined reprs of dict members. -/
def pyReprMembers : List (String × Json) → String
  | [] => ""
  | [(k, v)] => k ++ ": " ++ pyRepr v
  | (k, v) :: m :: rest => k ++ ": " ++ pyRepr v ++ ", " ++ pyReprMembers (m :: rest)

end

/-- Python `str(x)` on a JSON-decoded value. -/
def pyStr : Json → String
  | .str s => s
  | j => pyRepr j

/-- Outcome of the remote Gemini call, as seen by the `try` block in
`utils.py`: either some exception escapes the client library (its type
name and message), or a response with the given text is returned
(`""` stands for a falsy response or response text). -/
inductive RemoteOutcome where
  | exn (kind msg : String)
  | ok (text : String)

/-- Python falsiness of the value `os.getenv("GEMINI_API_KEY")` returned
for the configured key: unset (`None`) or set to the empty string. -/
def keyFalsy : Option String → Bool
  | none => true
  | some s => s == ""

/-- One validated entry of the `items` list (`utils.py` lines 182-186). -/
structure ExtractedItem where
  name : String
  quantity : Int
  specifications : String

/-- The envelope returned by `extract_rfp_from_text`. -/
structure RfpResult where
  success : Bool
  error : Option String
  title : Json
  budget : Option PyFloat
  deadline : Json
  items : List ExtractedItem
  raw_response : Option String

/-- The envelope returned by `extract_proposal_from_email`. -/
structure ProposalResult where
  success : Bool
  error : Option String
  price : Option PyFloat
  payment_terms : Json
  warranty : Json
  raw_response : Option String

/-- Error message of the missing-credential envelope (`utils.py` lines
45 and 233). -/
def keyMissingMsg : String := "GEMINI_API_KEY environment variable not set"

/-- RFP envelope for a falsy API key (`utils.py` lines 42-50). -/
def rfpKeyMissingEnvelope : RfpResult :=
  ⟨false, some keyMissingMsg, Json.null, none, Json.null, [], none⟩

/-- RFP envelope for an empty response (`utils.py` lines 120-128). -/
def rfpEmptyRespEnvelope : RfpResult :=
  ⟨false, some "Empty response from Gemini API", Json.null, none, Json.null, [], none⟩

/-- RFP envelope for a JSON parse failure (`utils.py` lines 143-152). -/
def rfpParseFailEnvelope (msg raw : String) : RfpResult :=
  ⟨false, some ("Failed to parse JSON response: " ++ msg), Json.null, none, Json.null, [],
    some raw⟩

/-- RFP envelope built by the outer `except Exception` handler
(`utils.py` lines 192-204). -/
def rfpExnEnvelope (e : PyExn) : RfpResult :=
  ⟨false, some (e.kind ++ ": " ++ e.msg), Json.null, none, Json.null, [], none⟩

/-- Item-list validation loop of `extract_rfp_from_text` (`utils.py`
lines 179-188).  `int(...)` on the quantity is unguarded, so its
exception propagates. -/
def validateItems : List Json → Except PyExn (List ExtractedItem)
  | [] => .ok []
  | item :: rest =>
    match item with
    | .obj kvs =>
      if dictHasKey kvs "name" then
        match pyIntCore (dictGetD kvs "quantity" (Json.intNum 1)) with
        | .error e => .error e
        | .ok q =>
          match validateItems rest with
          | .error e => .error e
          | .ok tail =>
            .ok (⟨pyStr (dictGetD kvs "name" (Json.str "")), q,
                  pyStr (dictGetD kvs "specifications" (Json.str ""))⟩ :: tail)
      else validateItems rest
    | _ => validateItems rest

/-- Python iteration (`for item in x`) over a JSON-decoded value: lists
yield elements, strings yield one-character strings, dicts yield keys,
everything else raises `TypeError`. -/
def pyIterE : Json → Except PyExn (List Json)
  | .arr xs => .ok xs
  | .str s => .ok (s.data.map fun c => Json.str (String.mk [c]))
  | .obj kvs => .ok (kvs.map fun kv => Json.str kv.1)
  | j => .error ⟨"TypeError", pyTypeName j ++ " object is not iterable"⟩

/-- The `items` part of RFP normalization: fetch `items` (default `[]`),
iterate, validate each entry. -/
def validateItemsOf (kvs : List (String × Json)) : Except PyExn (List ExtractedItem) :=
  match pyIterE (dictGetD kvs "items" (Json.arr [])) with
  | .error e => .error e
  | .ok elems => validateItems elems

/-- Exceptions caught by the `except (ValueError, TypeError)` guards
around `float(...)` in `utils.py` (lines 164-169 and 340-345); an
`OverflowError` is not among them. -/
def caughtByFloatGuard (e : PyExn) : Bool :=
  e.kind == "ValueError" || e.kind == "TypeError"

/-- Budget normalization (`utils.py` lines 159 and 164-169): a present,
non-null value goes through `float()`; `ValueError`/`TypeError` downgrade
the field to `None`, any other exception (notably `OverflowError` on a
huge int) propagates. -/
def rfpBudget (kvs : List (String × Json)) : Except PyExn (Option PyFloat) :=
  let b := dictGetD kvs "budget" Json.null
  if b.isNull then .ok none
  else
    match pyFloatE b with
    | .ok f => .ok (some f)
    | .error e => if caughtByFloatGuard e then .ok none else .error e

/-- Deadline normalization (`utils.py` lines 160 and 171-176): only a
truthy value is validated, and it is nulled exactly when
`datetime.fromisoformat` raises. -/
def rfpDeadline (kvs : List (String × Json)) : Json :=
  let d := dictGetD kvs "deadline" Json.null
  if d.truthy then (if isoAccepts d then d else Json.null) else d

/-- Normalization of the parsed RFP response (`utils.py` lines 154-190),
in source order: budget (which can raise), then deadline, then items
(whose unguarded `int()` can raise).  A non-dict parse result raises
`AttributeError` on the first `.get`, which the outer handler turns into
a failure envelope. -/
def normalizeRfp : Json → Except PyExn RfpResult
  | .obj kvs =>
    (match rfpBudget kvs with
     | .error e => .error e
     | .ok b =>
       match validateItemsOf kvs with
       | .error e => .error e
       | .ok its =>
         .ok ⟨true, none, dictGetD kvs "title" (Json.str "Untitled RFP"), b,
              rfpDeadline kvs, its, none⟩)
  | j => .error ⟨"AttributeError", pyTypeName j ++ " object has no attribute get"⟩

/-- Body of the `try` block of `extract_rfp_from_text` (`utils.py` lines
52-190), with the remote call abstracted as an oracle; `.error` is an
exception reaching the outer handler. -/
def rfpTryBody : RemoteOutcome → Except PyExn RfpResult
  | .exn kind msg => .error ⟨kind, msg⟩
  | .ok text =>
    if text == "" then .ok rfpEmptyRespEnvelope
    else
      let cleaned := cleanResponse text
      match Json.loads cleaned with
      | .error msg => .ok (rfpParseFailEnvelope msg cleaned)
      | .ok data => normalizeRfp data

/-- The function `extract_rfp_from_text` of `backend/rfp/utils.py`,
parameterised by the configured API key and the remote-call oracle.
`.error` models the `ValueError` raised to the caller on blank input;
every other path returns an envelope. -/
def extract_rfp_from_text (input : String) (geminiKey : Option String)
    (remote : RemoteOutcome) : Except PyExn RfpResult :=
  if pyStripL input.data = [] then
    .error ⟨"ValueError", "Natural language input cannot be empty"⟩
  else
    .ok (if keyFalsy geminiKey then rfpKeyMissingEnvelope
         else
           match rfpTryBody remote with
           | .ok r => r
           | .error e => rfpExnEnvelope e)

/-- Proposal envelope for a falsy API key (`utils.py` lines 230-237). -/
def proposalKeyMissingEnvelope : ProposalResult :=
  ⟨false, some keyMissingMsg, none, Json.null, Json.null, none⟩

/-- Proposal envelope for an empty response (`utils.py` lines 299-306). -/
def proposalEmptyRespEnvelope : ProposalResult :=
  ⟨false, some "Empty response from Gemini API", none, Json.null, Json.null, none⟩

/-- Proposal envelope for a JSON parse failure (`utils.py` lines 321-329). -/
def proposalParseFailEnvelope (msg raw : String) : ProposalResult :=
  ⟨false, some ("Failed to parse JSON response: " ++ msg), none, Json.null, Json.null,
    some raw⟩

/-- Proposal envelope built by the outer `except Exception` handler
(`utils.py` lines 349-360). -/
def proposalExnEnvelope (e : PyExn) : ProposalResult :=
  ⟨false, some (e.kind ++ ": " ++ e.msg), none, Json.null, Json.null, none⟩

/-- Price normalization (`utils.py` lines 335 and 340-345), with the same
guard as the budget: `ValueError`/`TypeError` give `None`, anything else
propagates. -/
def proposalPrice (kvs : List (String × Json)) : Except PyExn (Option PyFloat) :=
  let p := dictGetD kvs "price" Json.null
  if p.isNull then .ok none
  else
    match pyFloatE p with
    | .ok f => .ok (some f)
    | .error e => if caughtByFloatGuard e then .ok none else .error e

/-- Normalization of the parsed proposal response (`utils.py` lines
331-347): `payment_terms` and `warranty` are taken verbatim. -/
def normalizeProposal : Json → Except PyExn ProposalResult
  | .obj kvs =>
    (match proposalPrice kvs with
     | .error e => .error e
     | .ok p =>
       .ok ⟨true, none, p, dictGetD kvs "payment_terms" Json.null,
            dictGetD kvs "warranty" Json.null, none⟩)
  | j => .error ⟨"AttributeError", pyTypeName j ++ " object has no attribute get"⟩

/-- Body of the `try` block of `extract_proposal_from_email` (`utils.py`
lines 239-347). -/
def proposalTryBody : RemoteOutcome → Except PyExn ProposalResult
  | .exn kind msg => .error ⟨kind, msg⟩
  | .ok text =>
    if text == "" then .ok proposalEmptyRespEnvelope
    else
      let cleaned := cleanResponse text
      match Json.loads cleaned with
      | .error msg => .ok (proposalParseFailEnvelope msg cleaned)
      | .ok data => normalizeProposal data

/-- The function `extract_proposal_from_email` of `backend/rfp/utils.py`,
parameterised like `extract_rfp_from_text`. -/
def extract_proposal_from_email (email_body : String) (geminiKey : Option String)
    (remote : RemoteOutcome) : Except PyExn ProposalResult :=
  if pyStripL email_body.data = [] then
    .error ⟨"ValueError", "Email body cannot be empty"⟩
  else
    .ok (if keyFalsy geminiKey then proposalKeyMissingEnvelope
         else
           match proposalTryBody remote with
           | .ok r => r
           | .error e => proposalExnEnvelope e)

/-- The helper `_parse_budget` of `backend/rfp/views.py` (lines 426-442),
applied to the envelope's budget (a float or `None`): `Decimal(str(x))`
is exact in the rational model and never fails on these inputs. -/
def _parse_budget : Option PyFloat → Option PyFloat
  | none => none
  | some f => some f

/-- The helper `_parse_quantity` of `backend/rfp/views.py` (lines
445-459): `max(1, int(value))`, with 1 on `ValueError`/`TypeError`. -/
def _parse_quantity (v : Json) : Int :=
  match pyIntCore v with
  | .ok q => max 1 q
  | .error _ => 1

/-- A persisted `RFP` row (`models.py` lines 22-55), as written by
`create_rfp_from_text`; timestamps are outside the model. -/
structure RfpRow where
  id : Nat
  title : Json
  natural_language_input : String
  budget : Option PyFloat
  status : String

/-- A persisted `RFPItem` row (`models.py` lines 58-80). -/
structure ItemRow where
  id : Nat
  rfp : Nat
  name : String
  quantity : Int
  specifications : String

/-- The record store seen by `create_rfp_from_text`: RFP and RFPItem
tables plus fresh-id counters. -/
structure DbState where
  rfps : List RfpRow
  rfpItems : List ItemRow
  nextRfpId : Nat
  nextItemId : Nat

/-- One `RFPItem.objects.create` call (`views.py` lines 391-396). -/
def addItemRow (db : DbState) (rfpId : Nat) (it : ExtractedItem) : DbState :=
  ⟨db.rfps,
   db.rfpItems ++ [⟨db.nextItemId, rfpId, it.name, _parse_quantity (Json.intNum it.quantity),
                    it.specifications⟩],
   db.nextRfpId, db.nextItemId + 1⟩

/-- The item-creation loop inside the transaction.  `itemOk` is the
store-collaborator oracle: `itemOk i = false` means the i-th
`RFPItem.objects.create` raises; `none` means the transaction body
raised. -/
def createItems (rfpId : Nat) (itemOk : Nat → Bool) :
    DbState → List ExtractedItem → Nat → Option DbState
  | db, [], _ => some db
  | db, it :: rest, idx =>
    if itemOk idx then createItems rfpId itemOk (addItemRow db rfpId it) rest (idx + 1)
    else none

/-- The `transaction.atomic()` block of `create_rfp_from_text`
(`views.py` lines 379-411): on an exception inside the block every write
is rolled back and the outer `except Exception` answers 500; otherwise
the writes commit and the view answers 201. -/
def runCreateTransaction (db : DbState) (text : String) (r : RfpResult)
    (itemOk : Nat → Bool) : DbState × Nat :=
  let rfpRow : RfpRow := ⟨db.nextRfpId, r.title, text, _parse_budget r.budget, "draft"⟩
  let db1 : DbState := ⟨db.rfps ++ [rfpRow], db.rfpItems, db.nextRfpId + 1, db.nextItemId⟩
  match createItems db.nextRfpId itemOk db1 r.items 0 with
  | some db2 => (db2, 201)
  | none => (db, 500)

/-- The view `create_rfp_from_text` of `backend/rfp/views.py` (lines
330-423), returning the store state and the HTTP status code.  `reqText`
is `request.data.get('text')`, with JSON null standing for an absent
key. -/
def create_rfp_from_text (db : DbState) (reqText : Json) (geminiKey : Option String)
    (remote : RemoteOutcome) (itemOk : Nat → Bool) : DbState × Nat :=
  if ¬reqText.truthy then (db, 400)
  else
    match reqText with
    | .str text =>
      if pyStripL text.data = [] then (db, 400)
      else
        match extract_rfp_from_text text geminiKey remote with
        | .error _ => (db, 400)
        | .ok r =>
          if r.success then runCreateTransaction db text r itemOk
          else (db, 422)
    | _ => (db, 400)

/-- A persisted `Proposal` row (`models.py` lines 83-124); the
`payment_terms`/`warranty` fields carry the value assigned by
`fetch_emails.py` verbatim.  Timestamps are outside the model; proposal
lists below are kept most-recent-first, matching the model's default
ordering `-submitted_at`, so Django's `.first()` is the head match and a
newly created row is prepended. -/
structure ProposalRow where
  rfp : Nat
  vendor : Nat
  raw_email_content : String
  price : Option PyFloat
  payment_terms : Json
  warranty : Json

/-- Python `x or ''` as applied to the extracted payment terms and
warranty (`fetch_emails.py` lines 494-495 and 509-510). -/
def jsonOrEmpty (j : Json) : Json := if j.truthy then j else Json.str ""

/-- The update branch of the upsert (`fetch_emails.py` lines 485-498):
price only overwritten when the extracted price `is not None`;
payment terms, warranty and raw content always overwritten. -/
def updateRowFn (p : ProposalRow) (d : ProposalResult) (body : String) : ProposalRow :=
  ⟨p.rfp, p.vendor, body,
   (match d.price with
    | some q => some q
    | none => p.price),
   jsonOrEmpty d.payment_terms, jsonOrEmpty d.warranty⟩

/-- The create branch of the upsert (`fetch_emails.py` lines 505-512):
note the price guard here is truthiness, so an extracted price of 0 is
stored as `None`. -/
def createRowFn (rfpId vendorId : Nat) (d : ProposalResult) (body : String) : ProposalRow :=
  ⟨rfpId, vendorId, body,
   (match d.price with
    | some f => if f.truthy then some f else none
    | none => none),
   jsonOrEmpty d.payment_terms, jsonOrEmpty d.warranty⟩

/-- The filter `Proposal.objects.filter(rfp=rfp, vendor=vendor)`. -/
def proposalMatches (rfpId vendorId : Nat) (p : ProposalRow) : Bool :=
  p.rfp == rfpId && p.vendor == vendorId

/-- Update-in-place of the `.first()` match, if any. -/
def upsertGo (rfpId vendorId : Nat) (d : ProposalResult) (body : String) :
    List ProposalRow → Option (List ProposalRow)
  | [] => none
  | p :: rest =>
    if proposalMatches rfpId vendorId p then some (updateRowFn p d body :: rest)
    else (upsertGo rfpId vendorId d body rest).map fun t => p :: t

/-- The Proposal upsert step of `_create_proposal_from_email`
(`fetch_emails.py` lines 477-521): update the existing row for the
(RFP, Vendor) pair in place, or create a new one. -/
def upsertProposal (store : List ProposalRow) (rfpId vendorId : Nat)
    (d : ProposalResult) (body : String) : List ProposalRow :=
  match upsertGo rfpId vendorId d body store with
  | some s => s
  | none => createRowFn rfpId vendorId d body :: store

/-- Number of Proposal rows of a given (RFP, Vendor) pair. -/
def countPair (store : List ProposalRow) (rfpId vendorId : Nat) : Nat :=
  (store.filter (proposalMatches rfpId vendorId)).length

/-- The keep condition of the item loop (`utils.py` line 181):
`isinstance(item, dict) and "name" in item`. -/
def isObjWithName : Json → Bool
  | .obj kvs => dictHasKey kvs "name"
  | _ => false

/-- The quantity value read by the item loop (`utils.py` line 184):
`item.get("quantity", 1)` for dict entries. -/
def entryQuantity : Json → Json
  | .obj kvs => dictGetD kvs "quantity" (Json.intNum 1)
  | _ => Json.intNum 1

theorem dblOverflowBoundN_eq : dblOverflowBoundN = 2 ^ 1024 - 2 ^ 970 := by
  unfold dblOverflowBoundN
  norm_num

theorem pyStrip_eq_empty_iff (s : String) : pyStrip s = "" ↔ pyStripL s.data = [] := by
  unfold pyStrip
  constructor
  · intro h
    have := congrArg String.data h
    simpa using this
  · intro h; simp [h]

/-- Claim C2: `extract_rfp_from_text` and `extract_proposal_from_email`
raise an exception exactly when the input string is empty or
whitespace-only; for every input that is non-empty after trimming they
return a success/error envelope, whatever the credential state or
remote-call outcome. -/
theorem extraction_raises_iff_blank (input : String) (k1 k2 : Option String)
    (r1 r2 : RemoteOutcome) :
    ((∃ e, extract_rfp_from_text input k1 r1 = .error e) ↔ pyStrip input = "") ∧
    ((∃ r, extract_rfp_from_text input k1 r1 = .ok r) ↔ ¬pyStrip input = "") ∧
    ((∃ e, extract_proposal_from_email input k2 r2 = .error e) ↔ pyStrip input = "") ∧
    ((∃ p, extract_proposal_from_email input k2 r2 = .ok p) ↔ ¬pyStrip input = "") := by
  rw [pyStrip_eq_empty_iff]
  unfold extract_rfp_from_text extract_proposal_from_email
  by_cases h : pyStripL input.data = [] <;> simp [h]

theorem extraction_raises_iff_blank_witness :
    ((∃ e, extract_rfp_from_text "  " (some "key") (.ok "x") = .error e) ↔
      pyStrip "  " = "") ∧
    ((∃ r, extract_rfp_from_text "  " (some "key") (.ok "x") = .ok r) ↔
      ¬pyStrip "  " = "") ∧
    ((∃ e, extract_proposal_from_email "  " none (.exn "E" "m") = .error e) ↔
      pyStrip "  " = "") ∧
    ((∃ p, extract_proposal_from_email "  " none (.exn "E" "m") = .ok p) ↔
      ¬pyStrip "  " = "") :=
  extraction_raises_iff_blank "  " (some "key") none (.ok "x") (.exn "E" "m")

/-- Claim C5: for every non-empty input, if the API credential is absent
from configuration, both extraction operations return an envelope with
`success = false` and an error string naming the missing credential, with
every data field null (and items empty for the RFP shape), and raise no
exception. -/
theorem missing_credential_envelope (input : String) (r1 r2 : RemoteOutcome)
    (h : ¬pyStrip input = "") :
    extract_rfp_from_text input none r1 = .ok rfpKeyMissingEnvelope ∧
    extract_proposal_from_email input none r2 = .ok proposalKeyMissingEnvelope ∧
    rfpKeyMissingEnvelope.success = false ∧
    rfpKeyMissingEnvelope.error = some keyMissingMsg ∧
    rfpKeyMissingEnvelope.title = Json.null ∧
    rfpKeyMissingEnvelope.budget = none ∧
    rfpKeyMissingEnvelope.deadline = Json.null ∧
    rfpKeyMissingEnvelope.items = [] ∧
    proposalKeyMissingEnvelope.success = false ∧
    proposalKeyMissingEnvelope.error = some keyMissingMsg ∧
    proposalKeyMissingEnvelope.price = none ∧
    proposalKeyMissingEnvelope.payment_terms = Json.null ∧
    proposalKeyMissingEnvelope.warranty = Json.null ∧
    startsWithL "GEMINI_API_KEY".data keyMissingMsg.data = true := by
  rw [pyStrip_eq_empty_iff] at h
  unfold extract_rfp_from_text extract_proposal_from_email
  simp [h, keyFalsy, rfpKeyMissingEnvelope, proposalKeyMissingEnvelope, keyMissingMsg]
  decide

theorem missing_credential_envelope_witness :
    ¬pyStrip "We need 50 laptops" = "" ∧
    extract_rfp_from_text "We need 50 laptops" none (.ok "x") = .ok rfpKeyMissingEnvelope :=
  ⟨by decide, (missing_credential_envelope "We need 50 laptops" (.ok "x") (.exn "E" "m")
    (by decide)).1⟩

theorem one_le_parse_quantity (v : Json) : 1 ≤ _parse_quantity v := by
  unfold _parse_quantity
  cases pyIntCore v with
  | ok n => simp
  | error e => simp

theorem createItems_rows (rfpId : Nat) (itemOk : Nat → Bool) :
    ∀ (its : List ExtractedItem) (db : DbState) (idx : Nat) (db' : DbState),
      createItems rfpId itemOk db its idx = some db' →
      ∀ row ∈ db'.rfpItems, row ∈ db.rfpItems ∨ 1 ≤ row.quantity := by
  intro its
  induction its with
  | nil =>
    intro db idx db' h row hrow
    unfold createItems at h
    cases h
    exact Or.inl hrow
  | cons it rest ih =>
    intro db idx db' h row hrow
    unfold createItems at h
    by_cases hok : itemOk idx
    · simp only [hok, if_true] at h
      rcases ih (addItemRow db rfpId it) (idx + 1) db' h row hrow with hmem | hq
      · unfold addItemRow at hmem
        simp at hmem
        rcases hmem with hold | hnew
        · exact Or.inl hold
        · right
          rw [hnew]
          show 1 ≤ _parse_quantity (Json.intNum it.quantity)
          exact one_le_parse_quantity _
      · exact Or.inr hq
    · simp [hok] at h

/-- Claim C10: `_parse_quantity` is total and always returns an integer
of at least 1 — `max(1, int(value))` when the conversion succeeds and 1
when it fails — so every RFPItem row persisted by `create_rfp_from_text`
has a quantity of at least 1, even when the extracted quantity is zero or
negative. -/
theorem parse_quantity_spec (v : Json) (db : DbState) (reqText : Json)
    (geminiKey : Option String) (remote : RemoteOutcome) (itemOk : Nat → Bool) :
    1 ≤ _parse_quantity v ∧
    (∀ n, pyIntCore v = .ok n → _parse_quantity v = max 1 n) ∧
    ((∃ e, pyIntCore v = .error e) → _parse_quantity v = 1) ∧
    (∀ row ∈ (create_rfp_from_text db reqText geminiKey remote itemOk).1.rfpItems,
      row ∈ db.rfpItems ∨ 1 ≤ row.quantity) := by
  refine ⟨one_le_parse_quantity v, ?_, ?_, ?_⟩
  · intro n h; unfold _parse_quantity; rw [h]
  · rintro ⟨e, h⟩; unfold _parse_quantity; rw [h]
  · intro row hrow
    unfold create_rfp_from_text at hrow
    by_cases ht : reqText.truthy
    · simp only [ht, not_true, if_neg, if_false] at hrow
      cases reqText with
      | str text =>
        by_cases hst : pyStripL text.data = []
        · simp [hst] at hrow
          exact Or.inl hrow
        · simp only [hst, if_neg, if_false] at hrow
          cases hex : extract_rfp_from_text text geminiKey remote with
          | error e => simp [hex] at hrow; exact Or.inl hrow
          | ok r =>
            simp only [hex] at hrow
            by_cases hsc : r.success
            · simp only [hsc, if_true] at hrow
              unfold runCreateTransaction at hrow
              cases hcr : createItems db.nextRfpId itemOk
                  ⟨db.rfps ++ [⟨db.nextRfpId, r.title, text, _parse_budget r.budget, "draft"⟩],
                   db.rfpItems, db.nextRfpId + 1, db.nextItemId⟩ r.items 0 with
              | none => simp [hcr] at hrow; exact Or.inl hrow
              | some db2 =>
                simp only [hcr] at hrow
                exact createItems_rows db.nextRfpId itemOk r.items _ 0 db2 hcr row hrow
            · simp [hsc] at hrow; exact Or.inl hrow
      | null => simp at hrow; exact Or.inl hrow
      | bool b => simp at hrow; exact Or.inl hrow
      | intNum n => simp at hrow; exact Or.inl hrow
      | num q => simp at hrow; exact Or.inl hrow
      | arr xs => simp at hrow; exact Or.inl hrow
      | obj kvs => simp at hrow; exact Or.inl hrow
    · simp [ht] at hrow
      exact Or.inl hrow

theorem extract_rfp_obj (input txt : String) (geminiKey : Option String)
    (kvs : List (String × Json))
    (h1 : ¬pyStrip input = "") (h2 : keyFalsy geminiKey = false) (h3 : ¬txt = "")
    (h4 : Json.loads (cleanResponse txt) = .ok (Json.obj kvs)) :
    extract_rfp_from_text input geminiKey (.ok txt) =
      .ok (match normalizeRfp (Json.obj kvs) with
           | .ok r => r
           | .error e => rfpExnEnvelope e) := by
  rw [pyStrip_eq_empty_iff] at h1
  unfold extract_rfp_from_text rfpTryBody
  simp only [h1, if_neg, if_false, h2, Bool.false_eq_true, beq_iff_eq, h3, h4]

theorem extract_proposal_obj (input txt : String) (geminiKey : Option String)
    (kvs : List (String × Json))
    (h1 : ¬pyStrip input = "") (h2 : keyFalsy geminiKey = false) (h3 : ¬txt = "")
    (h4 : Json.loads (cleanResponse txt) = .ok (Json.obj kvs)) :
    extract_proposal_from_email input geminiKey (.ok txt) =
      .ok (match normalizeProposal (Json.obj kvs) with
           | .ok p => p
           | .error e => proposalExnEnvelope e) := by
  rw [pyStrip_eq_empty_iff] at h1
  unfold extract_proposal_from_email proposalTryBody
  simp only [h1, if_neg, if_false, h2, Bool.false_eq_true, beq_iff_eq, h3, h4]

theorem uncaughtFloat_not_null (b : Json) (e : PyExn)
    (he : pyFloatE b = .error e) (hc : caughtByFloatGuard e = false) :
    b.isNull = false := by
  cases b with
  | null =>
    unfold pyFloatE at he
    injection he with h
    rw [← h] at hc
    exact absurd hc (by decide)
  | bool b => rfl
  | intNum n => rfl
  | num q => rfl
  | str s => rfl
  | arr xs => rfl
  | obj kvs => rfl

theorem rfpBudget_of_ok (kvs : List (String × Json)) (f : PyFloat)
    (hf : pyFloatE (dictGetD kvs "budget" Json.null) = .ok f) :
    rfpBudget kvs = .ok (some f) := by
  unfold rfpBudget
  dsimp only
  have hnn : (dictGetD kvs "budget" Json.null).isNull = false := by
    cases hdg : dictGetD kvs "budget" Json.null <;>
      first
        | rfl
        | (rw [hdg] at hf; simp [pyFloatE] at hf)
  rw [hnn]
  simp only [Bool.false_eq_true, if_false]
  rw [hf]

theorem rfpBudget_of_caught (kvs : List (String × Json)) (e : PyExn)
    (he : pyFloatE (dictGetD kvs "budget" Json.null) = .error e)
    (hc : caughtByFloatGuard e = true) :
    rfpBudget kvs = .ok none := by
  unfold rfpBudget
  dsimp only
  cases hnn : (dictGetD kvs "budget" Json.null).isNull with
  | true => simp
  | false =>
    simp only [Bool.false_eq_true, if_false]
    rw [he]
    simp [hc]

theorem proposalPrice_of_ok (kvs : List (String × Json)) (f : PyFloat)
    (hf : pyFloatE (dictGetD kvs "price" Json.null) = .ok f) :
    proposalPrice kvs = .ok (some f) := by
  unfold proposalPrice
  dsimp only
  have hnn : (dictGetD kvs "price" Json.null).isNull = false := by
    cases hdg : dictGetD kvs "price" Json.null <;>
      first
        | rfl
        | (rw [hdg] at hf; simp [pyFloatE] at hf)
  rw [hnn]
  simp only [Bool.false_eq_true, if_false]
  rw [hf]

theorem proposalPrice_of_caught (kvs : List (String × Json)) (e : PyExn)
    (he : pyFloatE (dictGetD kvs "price" Json.null) = .error e)
    (hc : caughtByFloatGuard e = true) :
    proposalPrice kvs = .ok none := by
  unfold proposalPrice
  dsimp only
  cases hnn : (dictGetD kvs "price" Json.null).isNull with
  | true => simp
  | false =>
    simp only [Bool.false_eq_true, if_false]
    rw [he]
    simp [hc]

set_option maxRecDepth 8192 in
set_option maxHeartbeats 2000000 in
/-- Claim C8 counterexample: a JSON integer budget of 2*10^308 is too large
for a binary64 float, so `float()` raises `OverflowError`, which the
`except (ValueError, TypeError)` guard at `utils.py` lines 166-169 does
not catch — the whole extraction returns `success = false` instead of
nulling the one bad field. -/
theorem numeric_overflow_counterexample :
    extract_rfp_from_text "t" (some "k")
      (.ok ("\x7b\"budget\": " ++ String.mk ('2' :: List.replicate 308 '0') ++ "\x7d")) =
      .ok ⟨false, some "OverflowError: int too large to convert to float",
           Json.null, none, Json.null, [], none⟩ := rfl

/-- Claim C8 (amended): for every parsed response object, the numeric
fields `budget` (RFP) and `price` (proposal) are kept in the result
exactly when Python `float()` converts the parsed value (and are then
that conversion, including `inf`/`nan` from the corresponding string
literals); a conversion failing with `ValueError` or `TypeError` (or a
null/absent field) yields null without failing the extraction; but a
conversion failing with any other exception — `OverflowError` on an
integer too large for a float — fails the whole extraction with
`success = false`. -/
theorem numeric_field_normalization (input txt txt2 : String) (geminiKey : Option String)
    (kvs kvs2 : List (String × Json)) (its : List ExtractedItem)
    (h1 : ¬pyStrip input = "") (h2 : keyFalsy geminiKey = false) (h3 : ¬txt = "")
    (h4 : Json.loads (cleanResponse txt) = .ok (Json.obj kvs))
    (h5 : validateItemsOf kvs = .ok its)
    (h6 : ¬txt2 = "")
    (h7 : Json.loads (cleanResponse txt2) = .ok (Json.obj kvs2)) :
    (∀ f, pyFloatE (dictGetD kvs "budget" Json.null) = .ok f →
      ∃ r, extract_rfp_from_text input geminiKey (.ok txt) = .ok r ∧
        r.success = true ∧ r.budget = some f) ∧
    (∀ e, pyFloatE (dictGetD kvs "budget" Json.null) = .error e →
      caughtByFloatGuard e = true →
      ∃ r, extract_rfp_from_text input geminiKey (.ok txt) = .ok r ∧
        r.success = true ∧ r.budget = none) ∧
    (∀ e, pyFloatE (dictGetD kvs "budget" Json.null) = .error e →
      caughtByFloatGuard e = false →
      ∃ r, extract_rfp_from_text input geminiKey (.ok txt) = .ok r ∧
        r.success = false ∧ r.budget = none ∧
        r.error = some (e.kind ++ ": " ++ e.msg)) ∧
    (∀ f, pyFloatE (dictGetD kvs2 "price" Json.null) = .ok f →
      ∃ p, extract_proposal_from_email input geminiKey (.ok txt2) = .ok p ∧
        p.success = true ∧ p.price = some f) ∧
    (∀ e, pyFloatE (dictGetD kvs2 "price" Json.null) = .error e →
      caughtByFloatGuard e = true →
      ∃ p, extract_proposal_from_email input geminiKey (.ok txt2) = .ok p ∧
        p.success = true ∧ p.price = none) ∧
    (∀ e, pyFloatE (dictGetD kvs2 "price" Json.null) = .error e →
      caughtByFloatGuard e = false →
      ∃ p, extract_proposal_from_email input geminiKey (.ok txt2) = .ok p ∧
        p.success = false ∧ p.price = none ∧
        p.error = some (e.kind ++ ": " ++ e.msg)) := by
  have hred := extract_rfp_obj input txt geminiKey kvs h1 h2 h3 h4
  have hred2 := extract_proposal_obj input txt2 geminiKey kvs2 h1 h2 h6 h7
  refine ⟨?_, ?_, ?_, ?_, ?_, ?_⟩
  · intro f hf
    rw [hred]
    simp only [normalizeRfp]
    rw [rfpBudget_of_ok kvs f hf, h5]
    exact ⟨_, rfl, rfl, rfl⟩
  · intro e he hc
    rw [hred]
    simp only [normalizeRfp]
    rw [rfpBudget_of_caught kvs e he hc, h5]
    exact ⟨_, rfl, rfl, rfl⟩
  · intro e he hc
    rw [hred]
    simp only [normalizeRfp]
    have hbud : rfpBudget kvs = .error e := by
      unfold rfpBudget
      dsimp only
      rw [uncaughtFloat_not_null _ e he hc]
      simp only [Bool.false_eq_true, if_false]
      rw [he]
      simp [hc]
    rw [hbud]
    exact ⟨_, rfl, rfl, rfl, rfl⟩
  · intro f hf
    rw [hred2]
    simp only [normalizeProposal]
    rw [proposalPrice_of_ok kvs2 f hf]
    exact ⟨_, rfl, rfl, rfl⟩
  · intro e he hc
    rw [hred2]
    simp only [normalizeProposal]
    rw [proposalPrice_of_caught kvs2 e he hc]
    exact ⟨_, rfl, rfl, rfl⟩
  · intro e he hc
    rw [hred2]
    simp only [normalizeProposal]
    have hpr : proposalPrice kvs2 = .error e := by
      unfold proposalPrice
      dsimp only
      rw [uncaughtFloat_not_null _ e he hc]
      simp only [Bool.false_eq_true, if_false]
      rw [he]
      simp [hc]
    rw [hpr]
    exact ⟨_, rfl, rfl, rfl, rfl⟩

theorem numeric_field_normalization_witness :
    (∃ r, extract_rfp_from_text "t" (some "k")
        (.ok "\x7b\"budget\": \"inf\", \"items\": []\x7d") = .ok r ∧
      r.success = true ∧ r.budget = some PyFloat.inf) ∧
    (∃ p, extract_proposal_from_email "t" (some "k")
        (.ok "\x7b\"price\": \"abc\"\x7d") = .ok p ∧
      p.success = true ∧ p.price = none) := by
  have h := numeric_field_normalization "t" "\x7b\"budget\": \"inf\", \"items\": []\x7d"
    "\x7b\"price\": \"abc\"\x7d" (some "k")
    [("budget", Json.str "inf"), ("items", Json.arr [])] [("price", Json.str "abc")] []
    (by decide) rfl (by decide) rfl rfl (by decide) rfl
  exact ⟨h.1 PyFloat.inf (by decide),
    h.2.2.2.2.1 ⟨"ValueError", "could not convert string to float: abc"⟩ (by decide) rfl⟩

/-- Claim C4 counterexample: an extracted deadline of `""` is falsy, so
`utils.py` line 172 skips validation and the empty string is kept in the
result — it is not replaced by null although it does not parse as an
ISO-8601 date. -/
theorem deadline_falsy_kept_counterexample :
    extract_rfp_from_text "t" (some "k")
      (.ok "\x7b\"deadline\": \"\", \"items\": []\x7d") =
      .ok ⟨true, none, Json.str "Untitled RFP", none, Json.str "", [], none⟩ ∧
    fromisoformatOk "" = false :=
  ⟨rfl, rfl⟩

theorem isoAccepts_truthy (d : Json) (h : isoAccepts d = true) : d.truthy = true := by
  cases d with
  | str s =>
    simp [Json.truthy]
    intro hs
    rw [hs] at h
    exact absurd h (by decide)
  | null => simp [isoAccepts] at h
  | bool b => simp [isoAccepts] at h
  | intNum n => simp [isoAccepts] at h
  | num q => simp [isoAccepts] at h
  | arr xs => simp [isoAccepts] at h
  | obj kvs => simp [isoAccepts] at h

/-- Claim C4 (amended): in deadline normalization, a truthy parsed
deadline value is kept exactly when `datetime.fromisoformat` accepts it
(a non-string or unparseable value is replaced by null) without failing
the extraction, while a falsy value (null, empty string, 0, false, empty
containers) skips validation and is kept unchanged. -/
theorem deadline_normalization (input txt : String) (geminiKey : Option String)
    (kvs : List (String × Json)) (b : Option PyFloat) (its : List ExtractedItem)
    (h1 : ¬pyStrip input = "") (h2 : keyFalsy geminiKey = false) (h3 : ¬txt = "")
    (h4 : Json.loads (cleanResponse txt) = .ok (Json.obj kvs))
    (hb : rfpBudget kvs = .ok b)
    (h5 : validateItemsOf kvs = .ok its) :
    ∃ r, extract_rfp_from_text input geminiKey (.ok txt) = .ok r ∧ r.success = true ∧
      (isoAccepts (dictGetD kvs "deadline" Json.null) = true →
        r.deadline = dictGetD kvs "deadline" Json.null) ∧
      ((dictGetD kvs "deadline" Json.null).truthy = true →
        isoAccepts (dictGetD kvs "deadline" Json.null) = false → r.deadline = Json.null) ∧
      ((dictGetD kvs "deadline" Json.null).truthy = false →
        r.deadline = dictGetD kvs "deadline" Json.null) := by
  rw [extract_rfp_obj input txt geminiKey kvs h1 h2 h3 h4]
  simp only [normalizeRfp, hb, h5]
  refine ⟨_, rfl, rfl, ?_, ?_, ?_⟩
  · intro hiso
    show rfpDeadline kvs = _
    unfold rfpDeadline
    simp [isoAccepts_truthy _ hiso, hiso]
  · intro ht hiso
    show rfpDeadline kvs = _
    unfold rfpDeadline
    simp [ht, hiso]
  · intro ht
    show rfpDeadline kvs = _
    unfold rfpDeadline
    simp [ht]

theorem deadline_normalization_witness :
    ∃ r, extract_rfp_from_text "t" (some "k")
        (.ok "\x7b\"deadline\": \"2024-03-15\", \"items\": []\x7d") = .ok r ∧
      r.success = true ∧
      (isoAccepts (dictGetD [("deadline", Json.str "2024-03-15"), ("items", Json.arr [])]
          "deadline" Json.null) = true →
        r.deadline = dictGetD [("deadline", Json.str "2024-03-15"), ("items", Json.arr [])]
          "deadline" Json.null) ∧
      ((dictGetD [("deadline", Json.str "2024-03-15"), ("items", Json.arr [])]
          "deadline" Json.null).truthy = true →
        isoAccepts (dictGetD [("deadline", Json.str "2024-03-15"), ("items", Json.arr [])]
          "deadline" Json.null) = false →
        r.deadline = Json.null) ∧
      ((dictGetD [("deadline", Json.str "2024-03-15"), ("items", Json.arr [])]
          "deadline" Json.null).truthy = false →
        r.deadline = dictGetD [("deadline", Json.str "2024-03-15"), ("items", Json.arr [])]
          "deadline" Json.null) :=
  deadline_normalization "t" "\x7b\"deadline\": \"2024-03-15\", \"items\": []\x7d" (some "k")
    [("deadline", Json.str "2024-03-15"), ("items", Json.arr [])] none []
    (by decide) rfl (by decide) rfl rfl rfl

theorem validateItems_skip (j : Json) (rest : List Json) (h : isObjWithName j = false) :
    validateItems (j :: rest) = validateItems rest := by
  cases j with
  | obj kvs =>
    have hn : dictHasKey kvs "name" = false := by simpa [isObjWithName] using h
    show (if dictHasKey kvs "name" = true then _ else validateItems rest) = validateItems rest
    simp [hn]
  | null => rfl
  | bool b => rfl
  | intNum n => rfl
  | num q => rfl
  | str s => rfl
  | arr xs => rfl

theorem validateItems_cons_obj (kvs : List (String × Json)) (rest : List Json) :
    validateItems (Json.obj kvs :: rest) =
      if dictHasKey kvs "name" = true then
        (match pyIntCore (dictGetD kvs "quantity" (Json.intNum 1)) with
         | .error e => .error e
         | .ok q =>
           match validateItems rest with
           | .error e => .error e
           | .ok tail =>
             .ok (⟨pyStr (dictGetD kvs "name" (Json.str "")), q,
                   pyStr (dictGetD kvs "specifications" (Json.str ""))⟩ :: tail))
      else validateItems rest := rfl

theorem validateItems_filter (elems : List Json) :
    validateItems elems = validateItems (elems.filter isObjWithName) := by
  induction elems with
  | nil => rfl
  | cons j rest ih =>
    cases hk : isObjWithName j with
    | false =>
      rw [validateItems_skip j rest hk, List.filter, hk, ih]
    | true =>
      cases j with
      | obj kvs =>
        have hn : dictHasKey kvs "name" = true := by simpa [isObjWithName] using hk
        rw [List.filter, hk]
        rw [validateItems_cons_obj, validateItems_cons_obj, ih, hn]
      | null => simp [isObjWithName] at hk
      | bool b => simp [isObjWithName] at hk
      | intNum n => simp [isObjWithName] at hk
      | num q => simp [isObjWithName] at hk
      | str s => simp [isObjWithName] at hk
      | arr xs => simp [isObjWithName] at hk

theorem validateItems_fails (elems : List Json)
    (h : ∃ j ∈ elems, isObjWithName j = true ∧ ∃ e, pyIntCore (entryQuantity j) = .error e) :
    ∃ e, validateItems elems = .error e := by
  induction elems with
  | nil => simp at h
  | cons j rest ih =>
    rcases h with ⟨j2, hj2, hname, e, he⟩
    rcases List.mem_cons.mp hj2 with heq | hmem
    · subst heq
      cases j2 with
      | obj kvs =>
        have hn : dictHasKey kvs "name" = true := by simpa [isObjWithName] using hname
        have he2 : pyIntCore (dictGetD kvs "quantity" (Json.intNum 1)) = .error e := he
        rw [validateItems_cons_obj, hn]
        simp [he2]
      | null => simp [isObjWithName] at hname
      | bool b => simp [isObjWithName] at hname
      | intNum n => simp [isObjWithName] at hname
      | num q => simp [isObjWithName] at hname
      | str s => simp [isObjWithName] at hname
      | arr xs => simp [isObjWithName] at hname
    · have hrec := ih ⟨j2, hmem, hname, e, he⟩
      rcases hrec with ⟨e2, he2⟩
      cases hk : isObjWithName j with
      | false => rw [validateItems_skip j rest hk]; exact ⟨e2, he2⟩
      | true =>
        cases j with
        | obj kvs =>
          have hn : dictHasKey kvs "name" = true := by simpa [isObjWithName] using hk
          rw [validateItems_cons_obj, hn]
          cases hq : pyIntCore (dictGetD kvs "quantity" (Json.intNum 1)) with
          | error e3 => exact ⟨e3, by simp⟩
          | ok n => rw [he2]; exact ⟨e2, by simp⟩
        | null => simp [isObjWithName] at hk
        | bool b => simp [isObjWithName] at hk
        | intNum n => simp [isObjWithName] at hk
        | num q => simp [isObjWithName] at hk
        | str s => simp [isObjWithName] at hk
        | arr xs => simp [isObjWithName] at hk

/-- Claim C3 counterexample: one item entry whose quantity does not
convert with `int()` (here `"abc"`) makes the whole extraction return
`success = false` — the `int` call in `utils.py` line 184 is not guarded,
so the exception reaches the outer handler. -/
theorem item_quantity_failure_counterexample :
    extract_rfp_from_text "t" (some "k")
      (.ok "\x7b\"items\": [\x7b\"name\": \"X\", \"quantity\": \"abc\"\x7d]\x7d") =
      .ok ⟨false, some "ValueError: invalid literal for int() with base 10: abc",
           Json.null, none, Json.null, [], none⟩ := rfl

/-- Claim C3 (amended): in item normalization, entries that are not
objects or lack a name are dropped; a kept entry's quantity defaults to 1
when absent and is coerced with `int()`, and its name and specifications
are coerced with `str()` (specifications defaulting to the empty string);
but when the quantity of some kept entry fails `int()` coercion, the
whole extraction returns `success = false` with an empty item list
(rather than defaulting that quantity to 1). -/
theorem item_normalization (input txt : String) (geminiKey : Option String)
    (kvs : List (String × Json)) (elems : List Json)
    (h1 : ¬pyStrip input = "") (h2 : keyFalsy geminiKey = false) (h3 : ¬txt = "")
    (h4 : Json.loads (cleanResponse txt) = .ok (Json.obj kvs))
    (h6 : dictGetD kvs "items" (Json.arr []) = Json.arr elems) :
    (validateItems elems = validateItems (elems.filter isObjWithName)) ∧
    (∀ kvs2 rest n, dictHasKey kvs2 "name" = true →
      pyIntCore (dictGetD kvs2 "quantity" (Json.intNum 1)) = .ok n →
      validateItems (Json.obj kvs2 :: rest) = (validateItems rest).map
        (fun tail => ⟨pyStr (dictGetD kvs2 "name" (Json.str "")), n,
                      pyStr (dictGetD kvs2 "specifications" (Json.str ""))⟩ :: tail)) ∧
    (∀ b its, rfpBudget kvs = .ok b → validateItems elems = .ok its →
      ∃ r, extract_rfp_from_text input geminiKey (.ok txt) = .ok r ∧
        r.success = true ∧ r.items = its) ∧
    ((∃ j ∈ elems, isObjWithName j = true ∧ ∃ e, pyIntCore (entryQuantity j) = .error e) →
      ∃ r, ∃ e : PyExn, extract_rfp_from_text input geminiKey (.ok txt) = .ok r ∧
        r.success = false ∧ r.items = [] ∧ r.error = some (e.kind ++ ": " ++ e.msg)) := by
  have hio : validateItemsOf kvs = validateItems elems := by
    unfold validateItemsOf
    rw [h6]
    rfl
  refine ⟨validateItems_filter elems, ?_, ?_, ?_⟩
  · intro kvs2 rest n hn hq
    rw [validateItems_cons_obj, hn]
    simp only [if_true, hq]
    cases validateItems rest with
    | error e => rfl
    | ok tail => rfl
  · intro b its hb hits
    rw [extract_rfp_obj input txt geminiKey kvs h1 h2 h3 h4]
    simp only [normalizeRfp, hb, hio, hits]
    exact ⟨_, rfl, rfl, rfl⟩
  · intro hfail
    rcases validateItems_fails elems hfail with ⟨e, he⟩
    rw [extract_rfp_obj input txt geminiKey kvs h1 h2 h3 h4]
    cases hb : rfpBudget kvs with
    | error e2 =>
      simp only [normalizeRfp, hb]
      exact ⟨_, e2, rfl, rfl, rfl, rfl⟩
    | ok b =>
      simp only [normalizeRfp, hb, hio, he]
      exact ⟨_, e, rfl, rfl, rfl, rfl⟩

theorem item_normalization_witness :
    validateItems [Json.obj [("name", Json.str "X"), ("quantity", Json.str "abc")]] =
      validateItems ([Json.obj [("name", Json.str "X"), ("quantity", Json.str "abc")]].filter
        isObjWithName) ∧
    (∃ r, ∃ e : PyExn, extract_rfp_from_text "t" (some "k")
        (.ok "\x7b\"items\": [\x7b\"name\": \"X\", \"quantity\": \"abc\"\x7d]\x7d") = .ok r ∧
      r.success = false ∧ r.items = [] ∧ r.error = some (e.kind ++ ": " ++ e.msg)) := by
  have h := item_normalization "t"
    "\x7b\"items\": [\x7b\"name\": \"X\", \"quantity\": \"abc\"\x7d]\x7d" (some "k")
    [("items", Json.arr [Json.obj [("name", Json.str "X"), ("quantity", Json.str "abc")]])]
    [Json.obj [("name", Json.str "X"), ("quantity", Json.str "abc")]]
    (by decide) rfl (by decide) rfl rfl
  refine ⟨h.1, h.2.2.2 ?_⟩
  exact ⟨Json.obj [("name", Json.str "X"), ("quantity", Json.str "abc")], by simp, rfl,
    ⟨"ValueError", "invalid literal for int() with base 10: abc"⟩, rfl⟩

theorem dropWhile_eq_self_of_head (p : Char → Bool) (l : List Char)
    (h : ∀ c, l.head? = some c → p c = false) : l.dropWhile p = l := by
  cases l with
  | nil => rfl
  | cons c rest => simp [List.dropWhile_cons, h c rfl]

theorem pyStripL_eq_self (l : List Char)
    (h1 : ∀ c, l.head? = some c → pyWsChar c = false)
    (h2 : ∀ c, l.getLast? = some c → pyWsChar c = false) :
    pyStripL l = l := by
  unfold pyStripL
  rw [dropWhile_eq_self_of_head _ l h1]
  rw [dropWhile_eq_self_of_head _ l.reverse
    (fun c hc => h2 c (by rwa [List.head?_reverse] at hc))]
  exact List.reverse_reverse l

theorem cleanL_steps (l l2 l3 : List Char)
    (hstrip : pyStripL l = l)
    (hsw : startsWithL "```json".data l = true)
    (hdrop : l.drop 7 = l2)
    (hsw2 : startsWithL "```".data l2 = false)
    (hew : endsWithL "```".data l2 = true)
    (hdr : dropRightL 3 l2 = l3) :
    cleanL l = pyStripL l3 := by
  unfold cleanL
  dsimp only
  rw [hstrip, hsw, if_pos rfl, hdrop, hsw2]
  simp only [Bool.false_eq_true, if_false]
  rw [hew, if_pos rfl, hdr]

theorem cleanL_steps2 (l l2 l3 : List Char)
    (hstrip : pyStripL l = l)
    (hswj : startsWithL "```json".data l = false)
    (hsw : startsWithL "```".data l = true)
    (hdrop : l.drop 3 = l2)
    (hew : endsWithL "```".data l2 = true)
    (hdr : dropRightL 3 l2 = l3) :
    cleanL l = pyStripL l3 := by
  unfold cleanL
  dsimp only
  rw [hstrip, hswj]
  simp only [Bool.false_eq_true, if_false]
  rw [hsw, if_pos rfl, hdrop, hew, if_pos rfl, hdr]

theorem head_dropWhile_false (p : Char → Bool) (l : List Char) :
    ∀ c, (l.dropWhile p).head? = some c → p c = false := by
  induction l with
  | nil => intro c hc; simp at hc
  | cons a rest ih =>
    intro c hc
    rw [List.dropWhile_cons] at hc
    cases hp : p a with
    | true => rw [hp, if_pos rfl] at hc; exact ih c hc
    | false =>
      rw [hp] at hc
      simp only [Bool.false_eq_true, if_false, List.head?_cons, Option.some.injEq] at hc
      rw [← hc]
      exact hp

theorem getLast_dropWhile_ne (p : Char → Bool) (l : List Char) :
    l.dropWhile p ≠ [] → (l.dropWhile p).getLast? = l.getLast? := by
  induction l with
  | nil => intro h; simp at h
  | cons a rest ih =>
    intro h
    rw [List.dropWhile_cons] at h ⊢
    cases hp : p a with
    | false =>
      simp only [Bool.false_eq_true, if_false]
    | true =>
      rw [if_pos hp] at h
      rw [if_pos rfl]
      have hrest : rest ≠ [] := by
        intro h2
        rw [h2] at h
        exact h rfl
      rw [ih h]
      obtain ⟨b, l2, rfl⟩ : ∃ b l2, rest = b :: l2 := by
        cases rest with
        | nil => exact absurd rfl hrest
        | cons b l2 => exact ⟨b, l2, rfl⟩
      rfl

theorem pyStripL_idem (l : List Char) : pyStripL (pyStripL l) = pyStripL l := by
  apply pyStripL_eq_self
  · intro c hc
    unfold pyStripL at hc
    rw [List.head?_reverse] at hc
    cases hd : (l.dropWhile pyWsChar).reverse.dropWhile pyWsChar with
    | nil => rw [hd] at hc; simp at hc
    | cons b l2 =>
      have hne : (l.dropWhile pyWsChar).reverse.dropWhile pyWsChar ≠ [] := by
        rw [hd]; intro h2; exact absurd h2 (by simp)
      rw [getLast_dropWhile_ne pyWsChar _ hne] at hc
      rw [List.getLast?_reverse] at hc
      exact head_dropWhile_false pyWsChar l c hc
  · intro c hc
    unfold pyStripL at hc
    rw [List.getLast?_reverse] at hc
    exact head_dropWhile_false pyWsChar _ c hc

theorem pyStripL_ws_cons (c : Char) (l : List Char) (hc : pyWsChar c = true) :
    pyStripL (c :: l) = pyStripL l := by
  unfold pyStripL
  rw [List.dropWhile_cons, hc, if_pos rfl]

theorem pyStripL_ws_concat (c : Char) (l : List Char) (hc : pyWsChar c = true) :
    pyStripL (l ++ [c]) = pyStripL l := by
  unfold pyStripL
  rw [List.dropWhile_append]
  cases hd : (l.dropWhile pyWsChar).isEmpty with
  | true =>
    rw [if_pos rfl]
    rw [List.isEmpty_iff] at hd
    rw [hd]
    rw [show List.dropWhile pyWsChar [c] = [] from by
      rw [List.dropWhile_cons, hc, if_pos rfl]; rfl]
  | false =>
    rw [if_neg Bool.false_ne_true]
    have hrev : (l.dropWhile pyWsChar ++ [c]).reverse =
        c :: (l.dropWhile pyWsChar).reverse := by simp
    rw [hrev, List.dropWhile_cons, hc, if_pos rfl]

theorem startsWith3_of_startsWith7 (l : List Char)
    (h : startsWithL "```json".data l = true) : startsWithL "```".data l = true := by
  match l with
  | [] => simp [startsWithL] at h
  | [a] => simp [startsWithL] at h
  | [a, b] => simp [startsWithL] at h
  | a :: b :: c :: rest =>
    simp [startsWithL] at h ⊢
    exact ⟨h.1, h.2.1, h.2.2.1⟩

theorem midFence_no_bt (t : List Char) :
    startsWithL "```".data ('\n' :: (t ++ ['\n', '`', '`', '`'])) = false := by
  simp [startsWithL]

theorem midFence_ends (t : List Char) :
    endsWithL "```".data ('\n' :: (t ++ ['\n', '`', '`', '`'])) = true := by
  unfold endsWithL
  have hrev : ('\n' :: (t ++ ['\n', '`', '`', '`'])).reverse =
      '`' :: '`' :: '`' :: '\n' :: (t.reverse ++ ['\n']) := by simp
  rw [hrev]
  simp [startsWithL]

theorem midFence_dropRight (t : List Char) :
    dropRightL 3 ('\n' :: (t ++ ['\n', '`', '`', '`'])) = '\n' :: (t ++ ['\n']) := by
  unfold dropRightL
  have hrev : ('\n' :: (t ++ ['\n', '`', '`', '`'])).reverse =
      '`' :: '`' :: '`' :: '\n' :: (t.reverse ++ ['\n']) := by simp
  rw [hrev]
  simp

theorem midFence_strip (t : List Char) :
    pyStripL ('\n' :: (t ++ ['\n'])) = pyStripL t := by
  rw [pyStripL_ws_cons '\n' _ (by decide)]
  exact pyStripL_ws_concat '\n' t (by decide)

theorem cleanL_tagged_wrap (t : List Char) :
    cleanL ("```json\n".data ++ t ++ "\n```".data) = pyStripL t := by
  have hL : "```json\n".data ++ t ++ "\n```".data =
      '`' :: '`' :: '`' :: 'j' :: 's' :: 'o' :: 'n' :: '\n' ::
        (t ++ ['\n', '`', '`', '`']) := by
    simp
  have f1 : pyStripL ("```json\n".data ++ t ++ "\n```".data) =
      "```json\n".data ++ t ++ "\n```".data := by
    apply pyStripL_eq_self
    · intro d hd
      rw [hL] at hd
      simp at hd
      subst hd
      decide
    · intro d hd
      rw [List.getLast?_append] at hd
      rw [show ("\n```".data : List Char).getLast? = some '`' from rfl] at hd
      simp [Option.or] at hd
      subst hd
      decide
  have f2 : startsWithL "```json".data ("```json\n".data ++ t ++ "\n```".data) = true := by
    rw [hL]
    simp [startsWithL]
  have f3 : ("```json\n".data ++ t ++ "\n```".data).drop 7 =
      '\n' :: (t ++ ['\n', '`', '`', '`']) := by
    rw [hL]
    rfl
  rw [cleanL_steps _ _ _ f1 f2 f3 (midFence_no_bt t) (midFence_ends t)
    (midFence_dropRight t), midFence_strip t]

theorem cleanL_untagged_wrap (t : List Char) :
    cleanL ("```\n".data ++ t ++ "\n```".data) = pyStripL t := by
  have hL : "```\n".data ++ t ++ "\n```".data =
      '`' :: '`' :: '`' :: '\n' :: (t ++ ['\n', '`', '`', '`']) := by
    simp
  have f1 : pyStripL ("```\n".data ++ t ++ "\n```".data) =
      "```\n".data ++ t ++ "\n```".data := by
    apply pyStripL_eq_self
    · intro d hd
      rw [hL] at hd
      simp at hd
      subst hd
      decide
    · intro d hd
      rw [List.getLast?_append] at hd
      rw [show ("\n```".data : List Char).getLast? = some '`' from rfl] at hd
      simp [Option.or] at hd
      subst hd
      decide
  have f2 : startsWithL "```json".data ("```\n".data ++ t ++ "\n```".data) = false := by
    rw [hL]
    simp [startsWithL]
  have f2b : startsWithL "```".data ("```\n".data ++ t ++ "\n```".data) = true := by
    rw [hL]
    simp [startsWithL]
  have f3 : ("```\n".data ++ t ++ "\n```".data).drop 3 =
      '\n' :: (t ++ ['\n', '`', '`', '`']) := by
    rw [hL]
    rfl
  rw [cleanL_steps2 _ _ _ f1 f2 f2b f3 (midFence_ends t) (midFence_dropRight t),
    midFence_strip t]

theorem cleanL_bare (l : List Char)
    (hnb : startsWithL "```".data (pyStripL l) = false)
    (hne : endsWithL "```".data (pyStripL l) = false) :
    cleanL l = pyStripL l := by
  have hnj : startsWithL "```json".data (pyStripL l) = false := by
    cases h : startsWithL "```json".data (pyStripL l) with
    | false => rfl
    | true =>
      have h3 := startsWith3_of_startsWith7 _ h
      rw [h3] at hnb
      simp at hnb
  unfold cleanL
  dsimp only
  rw [hnj]
  simp only [Bool.false_eq_true, if_false]
  rw [hnb]
  simp only [Bool.false_eq_true, if_false]
  rw [hne]
  simp only [Bool.false_eq_true, if_false]
  exact pyStripL_idem l

/-- Claim C7: for every text `t` that is nonempty and whose stripped form
does not itself begin or end with a code fence, wrapping `t` in a
Markdown code fence — leading ```` ```json ```` (tagged) or ```` ``` ````
(untagged) plus a trailing ```` ``` ```` — and applying the response
normalization yields exactly `t.strip()`, the same as normalizing the
unwrapped `t` (so whitespace padding around the JSON is tolerated);
hence `json.loads` sees identical input and both whole extractions
return identical results on the wrapped and unwrapped responses. -/
theorem fence_wrap_parses_identically (t input : String) (geminiKey : Option String)
    (h0 : ¬t = "")
    (hnb : startsWithL "```".data (pyStripL t.data) = false)
    (hne : endsWithL "```".data (pyStripL t.data) = false) :
    cleanResponse ("```json\n" ++ t ++ "\n```") = pyStrip t ∧
    cleanResponse ("```\n" ++ t ++ "\n```") = pyStrip t ∧
    cleanResponse t = pyStrip t ∧
    Json.loads (cleanResponse ("```json\n" ++ t ++ "\n```")) =
      Json.loads (cleanResponse t) ∧
    Json.loads (cleanResponse ("```\n" ++ t ++ "\n```")) =
      Json.loads (cleanResponse t) ∧
    extract_rfp_from_text input geminiKey (.ok ("```json\n" ++ t ++ "\n```")) =
      extract_rfp_from_text input geminiKey (.ok t) ∧
    extract_rfp_from_text input geminiKey (.ok ("```\n" ++ t ++ "\n```")) =
      extract_rfp_from_text input geminiKey (.ok t) ∧
    extract_proposal_from_email input geminiKey (.ok ("```json\n" ++ t ++ "\n```")) =
      extract_proposal_from_email input geminiKey (.ok t) ∧
    extract_proposal_from_email input geminiKey (.ok ("```\n" ++ t ++ "\n```")) =
      extract_proposal_from_email input geminiKey (.ok t) := by
  have hdT : ("```json\n" ++ t ++ "\n```").data =
      "```json\n".data ++ t.data ++ "\n```".data := by
    simp [String.data_append]
  have hdU : ("```\n" ++ t ++ "\n```").data =
      "```\n".data ++ t.data ++ "\n```".data := by
    simp [String.data_append]
  have c1 : cleanResponse ("```json\n" ++ t ++ "\n```") = pyStrip t := by
    unfold cleanResponse pyStrip
    rw [hdT, cleanL_tagged_wrap t.data]
  have c2 : cleanResponse ("```\n" ++ t ++ "\n```") = pyStrip t := by
    unfold cleanResponse pyStrip
    rw [hdU, cleanL_untagged_wrap t.data]
  have c3 : cleanResponse t = pyStrip t := by
    unfold cleanResponse pyStrip
    rw [cleanL_bare t.data hnb hne]
  have ht0 : (t == "") = false := by
    rw [beq_eq_false_iff_ne]
    exact h0
  have hwT : (("```json\n" ++ t ++ "\n```") == "") = false := by
    rw [beq_eq_false_iff_ne]
    intro h
    have h2 := congrArg String.data h
    rw [hdT] at h2
    simp at h2
  have hwU : (("```\n" ++ t ++ "\n```") == "") = false := by
    rw [beq_eq_false_iff_ne]
    intro h
    have h2 := congrArg String.data h
    rw [hdU] at h2
    simp at h2
  have hrT : rfpTryBody (.ok ("```json\n" ++ t ++ "\n```")) = rfpTryBody (.ok t) := by
    unfold rfpTryBody
    dsimp only
    rw [hwT, ht0]
    simp only [Bool.false_eq_true, if_false]
    rw [c1, c3]
  have hrU : rfpTryBody (.ok ("```\n" ++ t ++ "\n```")) = rfpTryBody (.ok t) := by
    unfold rfpTryBody
    dsimp only
    rw [hwU, ht0]
    simp only [Bool.false_eq_true, if_false]
    rw [c2, c3]
  have hpT : proposalTryBody (.ok ("```json\n" ++ t ++ "\n```")) =
      proposalTryBody (.ok t) := by
    unfold proposalTryBody
    dsimp only
    rw [hwT, ht0]
    simp only [Bool.false_eq_true, if_false]
    rw [c1, c3]
  have hpU : proposalTryBody (.ok ("```\n" ++ t ++ "\n```")) =
      proposalTryBody (.ok t) := by
    unfold proposalTryBody
    dsimp only
    rw [hwU, ht0]
    simp only [Bool.false_eq_true, if_false]
    rw [c2, c3]
  refine ⟨c1, c2, c3, by rw [c1, c3], by rw [c2, c3], ?_, ?_, ?_, ?_⟩
  · unfold extract_rfp_from_text
    rw [hrT]
  · unfold extract_rfp_from_text
    rw [hrU]
  · unfold extract_proposal_from_email
    rw [hpT]
  · unfold extract_proposal_from_email
    rw [hpU]

theorem fence_wrap_parses_identically_witness :
    cleanResponse ("```json\n" ++ " \x7b\x7d\n" ++ "\n```") = pyStrip " \x7b\x7d\n" ∧
    cleanResponse ("```\n" ++ " \x7b\x7d\n" ++ "\n```") = pyStrip " \x7b\x7d\n" ∧
    cleanResponse " \x7b\x7d\n" = pyStrip " \x7b\x7d\n" ∧
    Json.loads (cleanResponse ("```json\n" ++ " \x7b\x7d\n" ++ "\n```")) =
      Json.loads (cleanResponse " \x7b\x7d\n") ∧
    Json.loads (cleanResponse ("```\n" ++ " \x7b\x7d\n" ++ "\n```")) =
      Json.loads (cleanResponse " \x7b\x7d\n") ∧
    extract_rfp_from_text "t" (some "k") (.ok ("```json\n" ++ " \x7b\x7d\n" ++ "\n```")) =
      extract_rfp_from_text "t" (some "k") (.ok " \x7b\x7d\n") ∧
    extract_rfp_from_text "t" (some "k") (.ok ("```\n" ++ " \x7b\x7d\n" ++ "\n```")) =
      extract_rfp_from_text "t" (some "k") (.ok " \x7b\x7d\n") ∧
    extract_proposal_from_email "t" (some "k")
        (.ok ("```json\n" ++ " \x7b\x7d\n" ++ "\n```")) =
      extract_proposal_from_email "t" (some "k") (.ok " \x7b\x7d\n") ∧
    extract_proposal_from_email "t" (some "k")
        (.ok ("```\n" ++ " \x7b\x7d\n" ++ "\n```")) =
      extract_proposal_from_email "t" (some "k") (.ok " \x7b\x7d\n") :=
  fence_wrap_parses_identically " \x7b\x7d\n" "t" (some "k")
    (by decide) (by decide) (by decide)

theorem upsertGo_cons (rfpId vendorId : Nat) (d : ProposalResult) (body : String)
    (q : ProposalRow) (rest : List ProposalRow) :
    upsertGo rfpId vendorId d body (q :: rest) =
      if proposalMatches rfpId vendorId q = true then some (updateRowFn q d body :: rest)
      else (upsertGo rfpId vendorId d body rest).map (fun t => q :: t) := rfl

theorem upsertGo_none (rfpId vendorId : Nat) (d : ProposalResult) (body : String) :
    ∀ s : List ProposalRow, (∀ q ∈ s, proposalMatches rfpId vendorId q = false) →
      upsertGo rfpId vendorId d body s = none := by
  intro s
  induction s with
  | nil => intro _; rfl
  | cons q rest ih =>
    intro hno
    rw [upsertGo_cons, hno q (by simp)]
    simp only [Bool.false_eq_true, if_false]
    rw [ih (fun x hx => hno x (by simp [hx]))]
    rfl

theorem upsertGo_found (rfpId vendorId : Nat) (d : ProposalResult) (body : String) :
    ∀ (s1 : List ProposalRow) (p : ProposalRow) (s2 : List ProposalRow),
      proposalMatches rfpId vendorId p = true →
      (∀ q ∈ s1, proposalMatches rfpId vendorId q = false) →
      upsertGo rfpId vendorId d body (s1 ++ p :: s2) =
        some (s1 ++ updateRowFn p d body :: s2) := by
  intro s1
  induction s1 with
  | nil =>
    intro p s2 hm _
    rw [List.nil_append, upsertGo_cons, hm]
    simp
  | cons q rest ih =>
    intro p s2 hm hno
    rw [List.cons_append, upsertGo_cons, hno q (by simp)]
    simp only [Bool.false_eq_true, if_false]
    rw [ih p s2 hm (fun x hx => hno x (by simp [hx]))]
    rfl

/-- Claim C9: on the update path of the ingestion upsert (an existing
Proposal for the (RFP, Vendor) pair), an extracted price of `None` leaves
the stored price unchanged while any extracted price overwrites it, and
`payment_terms`, `warranty` and `raw_email_content` are always
overwritten — the first two with the empty string when the extraction
returned null for them; the row keys are unchanged and the rest of the
store is untouched. -/
theorem upsert_update_frame (s1 s2 : List ProposalRow) (p : ProposalRow)
    (rfpId vendorId : Nat) (d : ProposalResult) (body : String)
    (hmatch : proposalMatches rfpId vendorId p = true)
    (hbefore : ∀ q ∈ s1, proposalMatches rfpId vendorId q = false) :
    upsertProposal (s1 ++ p :: s2) rfpId vendorId d body =
      s1 ++ updateRowFn p d body :: s2 ∧
    (d.price = none → (updateRowFn p d body).price = p.price) ∧
    (∀ q, d.price = some q → (updateRowFn p d body).price = some q) ∧
    (updateRowFn p d body).payment_terms = jsonOrEmpty d.payment_terms ∧
    (d.payment_terms = Json.null → (updateRowFn p d body).payment_terms = Json.str "") ∧
    (updateRowFn p d body).warranty = jsonOrEmpty d.warranty ∧
    (d.warranty = Json.null → (updateRowFn p d body).warranty = Json.str "") ∧
    (updateRowFn p d body).raw_email_content = body ∧
    (updateRowFn p d body).rfp = p.rfp ∧
    (updateRowFn p d body).vendor = p.vendor := by
  refine ⟨?_, ?_, ?_, rfl, ?_, rfl, ?_, rfl, rfl, rfl⟩
  · unfold upsertProposal
    rw [upsertGo_found rfpId vendorId d body s1 p s2 hmatch hbefore]
  · intro hp
    unfold updateRowFn
    rw [hp]
  · intro q hp
    unfold updateRowFn
    rw [hp]
  · intro hpt
    unfold updateRowFn jsonOrEmpty
    rw [hpt]
    rfl
  · intro hw
    unfold updateRowFn jsonOrEmpty
    rw [hw]
    rfl

theorem upsert_update_frame_witness :
    upsertProposal [⟨7, 9, "old", some (PyFloat.finite 3), Json.str "Net 30", Json.str "none"⟩] 7 9
        ⟨true, none, none, Json.null, Json.str "1 year", none⟩ "new body" =
      [updateRowFn ⟨7, 9, "old", some (PyFloat.finite 3), Json.str "Net 30", Json.str "none"⟩
        ⟨true, none, none, Json.null, Json.str "1 year", none⟩ "new body"] ∧
    (updateRowFn ⟨7, 9, "old", some (PyFloat.finite 3), Json.str "Net 30", Json.str "none"⟩
      ⟨true, none, none, Json.null, Json.str "1 year", none⟩ "new body").price = some (PyFloat.finite 3) := by
  have h := upsert_update_frame [] [] ⟨7, 9, "old", some (PyFloat.finite 3), Json.str "Net 30", Json.str "none"⟩
    7 9 ⟨true, none, none, Json.null, Json.str "1 year", none⟩ "new body"
    (by decide) (by intro q hq; simp at hq)
  exact ⟨h.1, h.2.1 rfl⟩

theorem matches_update (r v : Nat) (p : ProposalRow) (d : ProposalResult) (b : String) :
    proposalMatches r v (updateRowFn p d b) = proposalMatches r v p := rfl

theorem countPair_cons (q : ProposalRow) (s : List ProposalRow) (r v : Nat) :
    countPair (q :: s) r v =
      (if proposalMatches r v q = true then 1 else 0) + countPair s r v := by
  unfold countPair
  rw [List.filter_cons]
  by_cases h : proposalMatches r v q = true <;> simp [h, Nat.add_comm]

theorem countPair_zero_iff (s : List ProposalRow) (r v : Nat) :
    countPair s r v = 0 ↔ ∀ p ∈ s, proposalMatches r v p = false := by
  unfold countPair
  rw [List.length_eq_zero, List.filter_eq_nil_iff]
  simp

theorem upsertGo_count (rfpId vendorId r v : Nat) (d : ProposalResult) (body : String) :
    ∀ s s', upsertGo rfpId vendorId d body s = some s' →
      countPair s' r v = countPair s r v := by
  intro s
  induction s with
  | nil => intro s' h; cases h
  | cons q rest ih =>
    intro s' h
    rw [upsertGo_cons] at h
    by_cases hm : proposalMatches rfpId vendorId q = true
    · rw [if_pos hm] at h
      cases h
      rw [countPair_cons, countPair_cons, matches_update]
    · rw [if_neg hm] at h
      cases hgo : upsertGo rfpId vendorId d body rest with
      | none => rw [hgo] at h; cases h
      | some t =>
        rw [hgo] at h
        cases h
        rw [countPair_cons, countPair_cons, ih t hgo]

theorem upsertGo_eq_none (rfpId vendorId : Nat) (d : ProposalResult) (body : String) :
    ∀ s, upsertGo rfpId vendorId d body s = none →
      ∀ q ∈ s, proposalMatches rfpId vendorId q = false := by
  intro s
  induction s with
  | nil => intro _ q hq; simp at hq
  | cons p rest ih =>
    intro h q hq
    rw [upsertGo_cons] at h
    by_cases hm : proposalMatches rfpId vendorId p = true
    · rw [if_pos hm] at h; cases h
    · rw [if_neg hm] at h
      rcases List.mem_cons.mp hq with heq | hmem
      · subst heq; simpa using hm
      · cases hgo : upsertGo rfpId vendorId d body rest with
        | some t => rw [hgo] at h; cases h
        | none => exact ih hgo q hmem

theorem upsert_preserves_invariant (s : List ProposalRow) (r v : Nat)
    (d : ProposalResult) (b : String)
    (hinv : ∀ r' v', countPair s r' v' ≤ 1) :
    ∀ r' v', countPair (upsertProposal s r v d b) r' v' ≤ 1 := by
  intro r' v'
  unfold upsertProposal
  cases hgo : upsertGo r v d b s with
  | some s' => rw [upsertGo_count r v r' v' d b s s' hgo]; exact hinv r' v'
  | none =>
    have hno := upsertGo_eq_none r v d b s hgo
    rw [countPair_cons]
    by_cases hm : proposalMatches r' v' (createRowFn r v d b) = true
    · rw [if_pos hm]
      have hrv : r = r' ∧ v = v' := by
        unfold proposalMatches createRowFn at hm
        simpa using hm
      rcases hrv with ⟨hr, hv⟩
      subst hr; subst hv
      have h0 : countPair s r v = 0 := (countPair_zero_iff s r v).mpr hno
      rw [h0]
    · rw [if_neg hm, Nat.zero_add]
      exact hinv r' v'

/-- Claim C1 counterexample: after a first run that extracted price 5 and
a second run that extracted no price, the single remaining row carries
price 5 — it does not reflect the second run's extracted values, which
had `price = None`. -/
theorem two_run_upsert_counterexample :
    upsertProposal (upsertProposal [] 1 2 ⟨true, none, some (PyFloat.finite 5), Json.null, Json.null, none⟩ "b1")
      1 2 ⟨true, none, none, Json.null, Json.null, none⟩ "b2" =
      [⟨1, 2, "b2", some (PyFloat.finite 5), Json.str "", Json.str ""⟩] ∧
    (⟨true, none, none, Json.null, Json.null, none⟩ : ProposalResult).price = none :=
  ⟨rfl, rfl⟩

/-- Claim C1 (amended): starting from a store with no row for the
(RFP, Vendor) pair, two sequential upserts leave exactly one row for the
pair — the second run updates the first run's row in place; the row
carries the second run's raw content, payment terms and warranty, and the
second run's price when one was extracted, retaining the first run's
stored price otherwise; and every upsert preserves the at-most-one-row
invariant for all pairs. -/
theorem two_run_upsert (s0 : List ProposalRow) (rfpId vendorId : Nat)
    (d1 d2 : ProposalResult) (b1 b2 : String)
    (h0 : countPair s0 rfpId vendorId = 0) :
    (upsertProposal (upsertProposal s0 rfpId vendorId d1 b1) rfpId vendorId d2 b2).filter
        (proposalMatches rfpId vendorId) =
      [updateRowFn (createRowFn rfpId vendorId d1 b1) d2 b2] ∧
    countPair (upsertProposal (upsertProposal s0 rfpId vendorId d1 b1) rfpId vendorId d2 b2)
        rfpId vendorId = 1 ∧
    (updateRowFn (createRowFn rfpId vendorId d1 b1) d2 b2).raw_email_content = b2 ∧
    (updateRowFn (createRowFn rfpId vendorId d1 b1) d2 b2).payment_terms =
      jsonOrEmpty d2.payment_terms ∧
    (updateRowFn (createRowFn rfpId vendorId d1 b1) d2 b2).warranty =
      jsonOrEmpty d2.warranty ∧
    (∀ q, d2.price = some q →
      (updateRowFn (createRowFn rfpId vendorId d1 b1) d2 b2).price = some q) ∧
    (d2.price = none →
      (updateRowFn (createRowFn rfpId vendorId d1 b1) d2 b2).price =
        (createRowFn rfpId vendorId d1 b1).price) ∧
    (∀ (s : List ProposalRow) (r v : Nat) (d : ProposalResult) (b : String),
      (∀ r' v', countPair s r' v' ≤ 1) →
      ∀ r' v', countPair (upsertProposal s r v d b) r' v' ≤ 1) := by
  have hno : ∀ q ∈ s0, proposalMatches rfpId vendorId q = false :=
    (countPair_zero_iff s0 rfpId vendorId).mp h0
  have hs1 : upsertProposal s0 rfpId vendorId d1 b1 = createRowFn rfpId vendorId d1 b1 :: s0 := by
    unfold upsertProposal
    rw [upsertGo_none rfpId vendorId d1 b1 s0 hno]
  have hmc : proposalMatches rfpId vendorId (createRowFn rfpId vendorId d1 b1) = true := by
    unfold proposalMatches createRowFn
    simp
  have hs2 : upsertProposal (upsertProposal s0 rfpId vendorId d1 b1) rfpId vendorId d2 b2 =
      updateRowFn (createRowFn rfpId vendorId d1 b1) d2 b2 :: s0 := by
    rw [hs1]
    unfold upsertProposal
    rw [upsertGo_cons, if_pos hmc]
  have hmu : proposalMatches rfpId vendorId
      (updateRowFn (createRowFn rfpId vendorId d1 b1) d2 b2) = true := by
    rw [matches_update]
    exact hmc
  refine ⟨?_, ?_, rfl, rfl, rfl, ?_, ?_, upsert_preserves_invariant⟩
  · rw [hs2, List.filter_cons, hmu]
    simp only [if_true]
    have : s0.filter (proposalMatches rfpId vendorId) = [] := by
      rw [List.filter_eq_nil_iff]
      simpa using hno
    rw [this]
  · rw [hs2, countPair_cons, hmu, if_pos rfl, h0]
  · intro q hp
    unfold updateRowFn
    rw [hp]
  · intro hp
    unfold updateRowFn
    rw [hp]

theorem two_run_upsert_witness :
    countPair [] 1 2 = 0 ∧
    (upsertProposal (upsertProposal [] 1 2 ⟨true, none, some (PyFloat.finite 5), Json.null, Json.null, none⟩ "b1")
        1 2 ⟨true, none, none, Json.null, Json.str "1 yr", none⟩ "b2").filter
        (proposalMatches 1 2) =
      [updateRowFn (createRowFn 1 2 ⟨true, none, some (PyFloat.finite 5), Json.null, Json.null, none⟩ "b1")
        ⟨true, none, none, Json.null, Json.str "1 yr", none⟩ "b2"] :=
  ⟨rfl, (two_run_upsert [] 1 2 ⟨true, none, some (PyFloat.finite 5), Json.null, Json.null, none⟩
    ⟨true, none, none, Json.null, Json.str "1 yr", none⟩ "b1" "b2" rfl).1⟩

theorem createItems_fails (rfpId : Nat) (itemOk : Nat → Bool) :
    ∀ (its : List ExtractedItem) (db : DbState) (start : Nat),
      (∃ i, i < its.length ∧ itemOk (start + i) = false) →
      createItems rfpId itemOk db its start = none := by
  intro its
  induction its with
  | nil =>
    intro db start h
    rcases h with ⟨i, hi, _⟩
    simp at hi
  | cons it rest ih =>
    intro db start h
    unfold createItems
    by_cases hok : itemOk start
    · rw [if_pos hok]
      apply ih
      rcases h with ⟨i, hi, hfail⟩
      cases i with
      | zero => rw [Nat.add_zero] at hfail; rw [hok] at hfail; cases hfail
      | succ j =>
        refine ⟨j, ?_, ?_⟩
        · simpa using hi
        · rw [show start + 1 + j = start + (j + 1) by omega]
          exact hfail
    · rw [if_neg hok]

/-- Claim C6: persisting the RFP row and its items in
`create_rfp_from_text` is all-or-nothing — in every execution in which
some item persistence step fails after the RFP row was written, the
store afterwards is exactly the original store (no RFP row and no item
row is observable) and the view answers 500. -/
theorem create_rfp_atomicity (db : DbState) (text : String) (geminiKey : Option String)
    (remote : RemoteOutcome) (itemOk : Nat → Bool) (r : RfpResult)
    (hex : extract_rfp_from_text text geminiKey remote = .ok r)
    (hsucc : r.success = true)
    (i : Nat) (hi : i < r.items.length) (hfail : itemOk i = false) :
    create_rfp_from_text db (Json.str text) geminiKey remote itemOk = (db, 500) := by
  have hne : ¬pyStripL text.data = [] := by
    intro h
    unfold extract_rfp_from_text at hex
    rw [if_pos h] at hex
    cases hex
  have htr : (Json.str text).truthy = true := by
    simp only [Json.truthy, bne_iff_ne, ne_eq]
    intro h
    subst h
    exact hne rfl
  unfold create_rfp_from_text
  rw [htr]
  simp only [not_true, Bool.not_eq_true, if_neg, if_false]
  rw [if_neg hne, hex]
  simp only [hsucc, if_true]
  unfold runCreateTransaction
  dsimp only
  rw [createItems_fails db.nextRfpId itemOk r.items _ 0 ⟨i, hi, by simpa using hfail⟩]

theorem create_rfp_atomicity_witness :
    extract_rfp_from_text "t" (some "k")
      (.ok "\x7b\"items\": [\x7b\"name\": \"A\"\x7d]\x7d") =
      .ok ⟨true, none, Json.str "Untitled RFP", none, Json.null, [⟨"A", 1, ""⟩], none⟩ ∧
    create_rfp_from_text ⟨[], [], 0, 0⟩ (Json.str "t") (some "k")
      (.ok "\x7b\"items\": [\x7b\"name\": \"A\"\x7d]\x7d") (fun _ => false) =
      (⟨[], [], 0, 0⟩, 500) :=
  ⟨rfl, create_rfp_atomicity ⟨[], [], 0, 0⟩ "t" (some "k")
    (.ok "\x7b\"items\": [\x7b\"name\": \"A\"\x7d]\x7d") (fun _ => false)
    ⟨true, none, Json.str "Untitled RFP", none, Json.null, [⟨"A", 1, ""⟩], none⟩
    rfl rfl 0 (by decide) rfl⟩

theorem parse_quantity_spec_witness :
    pyIntCore (Json.num (-5)) = .ok (-5) ∧
    _parse_quantity (Json.num (-5)) = max 1 (-5) :=
  ⟨rfl, (parse_quantity_spec (Json.num (-5)) ⟨[], [], 0, 0⟩ Json.null none (.ok "")
    (fun _ => true)).2.1 (-5) rfl⟩
